import Mathlib

/-!
# esp32-fuota: update orchestrator and update protocol client

A shallow embedding of `main/main.c` (the orchestrator automaton and the
maintenance-AP membership test), `components/fuota_b/fuota_b.c` (the
two-phase update protocol client) and `components/scan_wifi_b/scan_wifi_b.c`
(the scanner wrapper), followed by theorems about them.

Conventions of the embedding:

* a C `char` / `uint8_t` byte is a `Char`, a buffer or string is a
  `List Char`; reading a C string stops at the first NUL, and the end of the
  list stands for a NUL that follows the modelled bytes;
* enum values and `esp_err_t` codes are `Int`, with the numbering of the
  headers, so that a value outside the enumerators can be expressed;
* every call to a collaborator (Wi-Fi driver, HTTP client, flasher,
  connection manager) is answered from an explicit record of answers; the
  calls of the protocol client and of the orchestrator are logged in a list,
  in program order; log output is left out;
* `static` variables that survive a call are passed in and returned.
-/

set_option maxRecDepth 100000

namespace Fuota

/-! ## C strings -/

/-- The NUL byte. -/
def NUL : Char := Char.ofNat 0

/-- The text denoted by a C string: the bytes before the first NUL. -/
def c_str (s : List Char) : List Char :=
  s.takeWhile (fun c => c != NUL)

/-- C `strlen`. -/
def strlen (s : List Char) : Nat :=
  (c_str s).length

/-- C `strncmp(a, b, n)`: compares at most `n` bytes, stopping after a NUL;
the result is zero when no difference was met. -/
def strncmp : List Char → List Char → Nat → Int
  | _, _, 0 => 0
  | a, b, n + 1 =>
    let ca := a.headD NUL
    let cb := b.headD NUL
    if ca ≠ cb then (ca.toNat : Int) - (cb.toNat : Int)
    else if ca = NUL then 0
    else strncmp a.tail b.tail n

/-! ## main.c: the maintenance-AP membership test -/

/-- The part of the SDK type `wifi_ap_record_t` that main.c reads: the field
`uint8_t ssid[33]`. -/
structure wifi_ap_record_t where
  ssid : List Char
  deriving DecidableEq, Repr

/-- Macro `#define AP_NB 50`. -/
def AP_NB : Nat := 50

/-- The `for` loop of `is_ota_ap_available`, entered at index `i` with
`found_ap_nb - i` iterations left. A read past the end of `ap_records` has no
defined result (`none`). The two lengths are `uint8_t`. -/
def is_ota_ap_available_loop (OTA_UPDATE_AP_SSID : List Char)
    (ap_records : List wifi_ap_record_t) : Nat → Nat → Option Bool
  | 0, _ => some false
  | left + 1, i =>
    match ap_records[i]? with
    | none => none
    | some r =>
      let ssid_ota_l := strlen OTA_UPDATE_AP_SSID % 256
      let ssid_l := strlen r.ssid % 256
      if ssid_l = ssid_ota_l ∧ strncmp r.ssid OTA_UPDATE_AP_SSID ssid_l = 0 then
        some true
      else
        is_ota_ap_available_loop OTA_UPDATE_AP_SSID ap_records left (i + 1)

/-- Function `static bool is_ota_ap_available(uint8_t found_ap_nb)`, with the globals
`OTA_UPDATE_AP_SSID` and `ap_records` as arguments. -/
def is_ota_ap_available (OTA_UPDATE_AP_SSID : List Char)
    (ap_records : List wifi_ap_record_t) (found_ap_nb : Nat) : Option Bool :=
  is_ota_ap_available_loop OTA_UPDATE_AP_SSID ap_records found_ap_nb 0

/-- Follows the spec's words (data model, AccessPointRecord): an SSID is a
byte string given by its length and its bytes, NUL allowed among them. The
record of such an access point holds the bytes at the start of its 33-byte
`ssid` field, the rest of the field being NUL. -/
def record_of_ssid (ssid : List Char) : wifi_ap_record_t :=
  ⟨ssid ++ List.replicate (33 - ssid.length) NUL⟩

/-! ## fuota_b.h, fuota_b.c: the update protocol client -/

/-- Enumerator of `ota_status_t`: the value `stop_comm` returns on success. -/
def OTA_OK : Int := 0

/-- Enumerator of `ota_status_t`: update received and stored. -/
def OTA_UPDATED : Int := 1

/-- Enumerator of `ota_status_t`: incorrect OTA parameter. -/
def OTA_PARAM_ERR : Int := 2

/-- Enumerator of `ota_status_t`: no update available. -/
def OTA_NO_UPDATE : Int := 3

/-- Enumerator of `ota_status_t`: connectivity problem. -/
def OTA_CONN_ERR : Int := 4

/-- Enumerator of `ota_status_t`: system error. -/
def OTA_SYS_ERR : Int := 5

/-- The SDK's `ESP_OK`. -/
def ESP_OK : Int := 0

/-- The SDK's `ESP_FAIL`. -/
def ESP_FAIL : Int := -1

/-- Constant `static const char VER_PARAM[] = "app_ver"`. -/
def VER_PARAM : List Char := ['a', 'p', 'p', '_', 'v', 'e', 'r']

/-- Constant `static const char HTTPS[] = "https://"`. -/
def HTTPS : List Char := ['h', 't', 't', 'p', 's', ':', '/', '/']

/-- Constant `static const char DEVICES_PATH[] = "/devices"`. -/
def DEVICES_PATH : List Char := ['/', 'd', 'e', 'v', 'i', 'c', 'e', 's']

/-- Constant `static const char FILES_PATH[] = "/files"`. -/
def FILES_PATH : List Char := ['/', 'f', 'i', 'l', 'e', 's']

/-- Macro `#define UPDATE_FILE_PATH_MAX_LENGTH 255`; the buffer `update_file_path`
has one byte more. -/
def UPDATE_FILE_PATH_MAX_LENGTH : Nat := 255

/-- Macro `#define REQUEST_URL_MAX_LENGTH 512`; the buffer `request_url` has one
byte more. -/
def REQUEST_URL_MAX_LENGTH : Nat := 512

/-- The conversion `%d` applied to a `uint16_t`. -/
def fmt_d_u16 (n : Nat) : List Char :=
  Nat.toDigits 10 (n % 65536)

/-- The text produced by the format `"%s%s:%d%s/%s?%s=%s"` with the arguments
of the first request. -/
def check_url_text (server_name : List Char) (server_port : Nat)
    (id app_ver : List Char) : List Char :=
  c_str HTTPS ++ c_str server_name ++ [':'] ++ fmt_d_u16 server_port ++
    c_str DEVICES_PATH ++ ['/'] ++ c_str id ++ ['?'] ++ c_str VER_PARAM ++ ['='] ++
    c_str app_ver

/-- The text produced by the format `"%s%s:%d%s/%s"` with the arguments of
the second request. -/
def file_url_text (server_name : List Char) (server_port : Nat)
    (update_file_path : List Char) : List Char :=
  c_str HTTPS ++ c_str server_name ++ [':'] ++ fmt_d_u16 server_port ++
    c_str FILES_PATH ++ ['/'] ++ c_str update_file_path

/-- C `snprintf(NULL, 0, ...)`: nothing is stored, the value is the length of
the whole text. The value is an `int`; a text in the memory of the 32-bit
target is far shorter than 2^31 bytes, so the length is taken as it is. -/
def snprintf_length (text : List Char) : Int :=
  (text.length : Int)

/-- C `snprintf(buf, size, ...)`, the string left in `buf`: at most `size - 1`
bytes of the text, then a NUL. -/
def snprintf_stored (size : Nat) (text : List Char) : List Char :=
  text.take (size - 1)

/-- The fields of `esp_http_client_config_t` that `ota_update_b` fills with
its arguments; `method`, `event_handler` and `auth_type` get constants. -/
structure esp_http_client_config_t where
  url : List Char
  cert_pem : List Char
  username : List Char
  password : List Char
  deriving DecidableEq, Repr

/-- The calls `ota_update_b` makes to the HTTP client and to the flasher. -/
inductive HttpCall where
  | esp_http_client_init (config : esp_http_client_config_t)
  | esp_http_client_open (write_len : Int)
  | esp_http_client_fetch_headers
  | esp_http_client_get_status_code
  | esp_http_client_read (len : Int)
  | esp_http_client_close
  | esp_http_client_cleanup
  | esp_https_ota (config : esp_http_client_config_t)
  deriving DecidableEq, Repr

/-- What the HTTP client and the flasher answer during one call of
`ota_update_b`: `init_ok` says that `esp_http_client_init` gave a handle,
`content_length` is the value of `esp_http_client_fetch_headers`, `body` holds
the bytes that `esp_http_client_read` can deliver. -/
structure HttpAnswers where
  init_ok : Bool
  open_rs : Int
  content_length : Int
  status_code : Int
  body : List Char
  close_rs : Int
  cleanup_rs : Int
  https_ota_rs : Int
  deriving DecidableEq, Repr

/-- A run of `ota_update_b`: the returned status, the calls made, and the
content of the static buffer `update_file_path` afterwards. -/
structure OtaRun where
  status : Int
  calls : List HttpCall
  update_file_path : List Char
  deriving DecidableEq, Repr

/-- Function `static ota_status_t stop_comm(esp_http_client_handle_t client)`: the
status and the calls made. -/
def stop_comm (h : HttpAnswers) : Int × List HttpCall :=
  if h.close_rs ≠ ESP_OK then
    (OTA_CONN_ERR, [HttpCall.esp_http_client_close])
  else if h.cleanup_rs ≠ ESP_OK then
    (OTA_SYS_ERR, [HttpCall.esp_http_client_close, HttpCall.esp_http_client_cleanup])
  else
    (OTA_OK, [HttpCall.esp_http_client_close, HttpCall.esp_http_client_cleanup])

/-- The call `esp_http_client_read(client, buf, len)` on the buffer `buf`: at most `len`
bytes of the body are stored from the start of the buffer, the bytes behind
them stay as they were. -/
def esp_http_client_read (buf : List Char) (body : List Char) (len : Int) : List Char :=
  body.take len.toNat ++ buf.drop (body.take len.toNat).length

/-- Function `ota_status_t ota_update_b(server_name, server_port, cert_pem, username,
password, id, app_ver)`; `update_file_path` is the content of the static
buffer of that name when the call starts. -/
def ota_update_b (server_name : List Char) (server_port : Nat)
    (cert_pem username password id app_ver : List Char)
    (update_file_path : List Char) (h : HttpAnswers) : OtaRun :=
  let url_length := snprintf_length (check_url_text server_name server_port id app_ver)
  if url_length > REQUEST_URL_MAX_LENGTH then
    ⟨OTA_PARAM_ERR, [], update_file_path⟩
  else
    let request_url := snprintf_stored REQUEST_URL_MAX_LENGTH
      (check_url_text server_name server_port id app_ver)
    let config : esp_http_client_config_t := ⟨request_url, cert_pem, username, password⟩
    let c1 := [HttpCall.esp_http_client_init config]
    if h.init_ok = false then
      ⟨OTA_SYS_ERR, c1, update_file_path⟩
    else
      let c2 := c1 ++ [HttpCall.esp_http_client_open 0]
      if h.open_rs ≠ ESP_OK then
        ⟨OTA_CONN_ERR, c2, update_file_path⟩
      else
        let content_length := h.content_length
        let c3 := c2 ++ [HttpCall.esp_http_client_fetch_headers]
        if content_length = ESP_FAIL then
          ⟨OTA_CONN_ERR, c3, update_file_path⟩
        else
          let status_code := h.status_code
          let c4 := c3 ++ [HttpCall.esp_http_client_get_status_code]
          if status_code = 400 then
            if (stop_comm h).1 ≠ OTA_OK then
              ⟨(stop_comm h).1, c4 ++ (stop_comm h).2, update_file_path⟩
            else
              ⟨OTA_PARAM_ERR, c4 ++ (stop_comm h).2, update_file_path⟩
          else if status_code = 403 then
            if (stop_comm h).1 ≠ OTA_OK then
              ⟨(stop_comm h).1, c4 ++ (stop_comm h).2, update_file_path⟩
            else
              ⟨OTA_PARAM_ERR, c4 ++ (stop_comm h).2, update_file_path⟩
          else if status_code = 404 then
            if (stop_comm h).1 ≠ OTA_OK then
              ⟨(stop_comm h).1, c4 ++ (stop_comm h).2, update_file_path⟩
            else
              ⟨OTA_NO_UPDATE, c4 ++ (stop_comm h).2, update_file_path⟩
          else if status_code = 204 then
            if (stop_comm h).1 ≠ OTA_OK then
              ⟨(stop_comm h).1, c4 ++ (stop_comm h).2, update_file_path⟩
            else
              ⟨OTA_NO_UPDATE, c4 ++ (stop_comm h).2, update_file_path⟩
          else if status_code = 200 then
            if content_length > UPDATE_FILE_PATH_MAX_LENGTH then
              ⟨OTA_PARAM_ERR, c4 ++ (stop_comm h).2, update_file_path⟩
            else
              let path := esp_http_client_read update_file_path h.body content_length
              let c5 := c4 ++ [HttpCall.esp_http_client_read content_length]
              if (stop_comm h).1 ≠ OTA_OK then
                ⟨(stop_comm h).1, c5 ++ (stop_comm h).2, path⟩
              else
                let c6 := c5 ++ (stop_comm h).2
                let url_length2 := snprintf_length (file_url_text server_name server_port path)
                if url_length2 > REQUEST_URL_MAX_LENGTH then
                  ⟨OTA_PARAM_ERR, c6, path⟩
                else
                  let request_url2 := snprintf_stored REQUEST_URL_MAX_LENGTH
                    (file_url_text server_name server_port path)
                  let config2 : esp_http_client_config_t :=
                    ⟨request_url2, cert_pem, username, password⟩
                  let c7 := c6 ++ [HttpCall.esp_https_ota config2]
                  if h.https_ota_rs ≠ ESP_OK then
                    ⟨OTA_CONN_ERR, c7, path⟩
                  else
                    ⟨OTA_UPDATED, c7, path⟩
          else
            ⟨OTA_SYS_ERR, c4, update_file_path⟩

/-! ## scan_wifi_b.h, scan_wifi_b.c: the scanner -/

/-- Enumerator of `swb_status_t`: successful scan. -/
def SWB_SUCCESS : Int := 0

/-- Enumerator of `swb_status_t`: error in scan. -/
def SWB_ERROR : Int := 1

/-- What the Wi-Fi driver answers during one call of `swb_scan_b`:
`netif_created` says that `esp_netif_create_default_wifi_sta` gave an
instance, `ap_records` is the content of the caller's array when
`esp_wifi_scan_get_ap_records` has succeeded, `ap_count` the `uint16_t` that
`esp_wifi_scan_get_ap_num` writes. -/
structure WifiAnswers where
  netif_created : Bool
  init_rs : Int
  set_mode_rs : Int
  start_rs : Int
  scan_start_rs : Int
  get_ap_records_rs : Int
  ap_records : List wifi_ap_record_t
  get_ap_num_rs : Int
  ap_count : Nat
  stop_rs : Int
  deriving DecidableEq, Repr

/-- A run of `swb_scan_b`: the returned status, and the caller's array and
the caller's `found_ap_nb` afterwards. -/
structure ScanRun where
  status : Int
  ap_records : List wifi_ap_record_t
  found_ap_nb : Nat
  deriving DecidableEq, Repr

/-- Function `swb_status_t swb_scan_b(uint8_t ap_nb, wifi_ap_record_t *ap_records,
uint8_t *found_ap_nb)`; the last two arguments are given by their content
when the call starts. -/
def swb_scan_b (ap_nb : Nat) (ap_records : List wifi_ap_record_t) (found_ap_nb : Nat)
    (w : WifiAnswers) : ScanRun :=
  if w.netif_created = false then ⟨SWB_ERROR, ap_records, found_ap_nb⟩
  else if w.init_rs ≠ ESP_OK then ⟨SWB_ERROR, ap_records, found_ap_nb⟩
  else if w.set_mode_rs ≠ ESP_OK then ⟨SWB_ERROR, ap_records, found_ap_nb⟩
  else if w.start_rs ≠ ESP_OK then ⟨SWB_ERROR, ap_records, found_ap_nb⟩
  else if w.scan_start_rs ≠ ESP_OK then ⟨SWB_ERROR, ap_records, found_ap_nb⟩
  else
    let ap_nb_16 := (ap_nb % 256) % 65536
    if w.get_ap_records_rs ≠ ESP_OK then ⟨SWB_ERROR, ap_records, found_ap_nb⟩
    else
      let ap_count := w.ap_count % 65536
      if w.get_ap_num_rs ≠ ESP_OK then ⟨SWB_ERROR, w.ap_records, found_ap_nb⟩
      else if w.stop_rs ≠ ESP_OK then ⟨SWB_ERROR, w.ap_records, found_ap_nb⟩
      else if ap_count > ap_nb_16 then ⟨SWB_SUCCESS, w.ap_records, ap_nb % 256⟩
      else ⟨SWB_SUCCESS, w.ap_records, ap_count % 256⟩

/-! ## conn_wifi_b.h: statuses of the connection manager -/

/-- Enumerator of `cwb_status_t`: done. -/
def CWB_OK : Int := 0

/-- Enumerator of `cwb_status_t`: could not connect to the AP. -/
def CWB_CONN_ERR : Int := 1

/-- Enumerator of `cwb_status_t`: could not get an IP address. -/
def CWB_IP_TIMEOUT : Int := 2

/-- Enumerator of `cwb_status_t`: disconnected from the AP. -/
def CWB_DIS : Int := 3

/-- Enumerator of `cwb_status_t`: timeout on disconnection request. -/
def CWB_DIS_TIMEOUT : Int := 4

/-- Enumerator of `cwb_status_t`: already disconnected. -/
def CWB_ALREADY_DIS : Int := 5

/-- Enumerator of `cwb_status_t`: already connected. -/
def CWB_ALREADY_CON : Int := 6

/-- Enumerator of `cwb_status_t`: pointer to SSID is null. -/
def CWB_PARAM_ERR : Int := 7

/-- Enumerator of `cwb_status_t`: system error. -/
def CWB_SYS_ERR : Int := 8

/-! ## main.c: the orchestrator -/

/-- Enumerator of `state_t`: scanning. -/
def ST_SCAN : Int := 0

/-- Enumerator of `state_t`: attempting the update. -/
def ST_TRY_OTA : Int := 1

/-- Constant `static const char OTA_VERSION[] = "0.1.0"`. -/
def OTA_VERSION : List Char := ['0', '.', '1', '.', '0']

/-- Constant `const char DEV_ID[] = "00001"`. -/
def DEV_ID : List Char := ['0', '0', '0', '0', '1']

/-- Time period before starting operations, in ms. -/
def WAIT_BEFORE_START_PERIOD_MS : Nat := 30000

/-- Time period before restart in case of fatal error, in ms. -/
def WAIT_BEFORE_RESTART_PERIOD_MS : Nat := 30000

/-- Time period before performing next scan, in ms. -/
def WAIT_BEFORE_NEXT_SCAN_MS : Nat := 30000

/-- Maximum wait period to get an IP address, in ms. -/
def IP_TIMEOUT_MS : Nat := 5000

/-- The build-time values `CONFIG_FUO_*` and the embedded certificate
`server_cert_pem_start`; their definitions are not part of the sources, so
they are parameters. -/
structure Config where
  OTA_UPDATE_AP_SSID : List Char
  OTA_UPDATE_AP_PASSWORD : List Char
  OTA_SERVER_NAME : List Char
  OTA_SERVER_PORT : Nat
  OTA_SERVER_USERNAME : List Char
  OTA_SERVER_PASSWORD : List Char
  server_cert_pem : List Char
  deriving DecidableEq, Repr

/-- The calls that the loop of `app_main` makes, in program order. A
`vTaskDelay(pdMS_TO_TICKS(ms))` is recorded with its period in ms; the calls
made inside `ota_update_b` are attached to it. -/
inductive Event where
  | swb_scan_b (ap_nb : Nat)
  | vTaskDelay_ms (ms : Nat)
  | cwb_connect_b (ssid password : List Char) (ip_timeout_ms : Nat)
  | ota_update_b (calls : List HttpCall)
  | cwb_disconnect_b
  | esp_restart
  deriving DecidableEq, Repr

/-- How one pass through the body of `while (true)` ends: by a `break` out of
the `switch` (the loop goes on), by `goto exit_on_fatal_error`, by a call of
`esp_restart` (which does not return), or by a read outside `ap_records`. -/
inductive Flow where
  | next_iteration
  | exit_on_fatal_error
  | restarted
  | undefined
  deriving DecidableEq, Repr

/-- The variables that live across the passes of the loop: `current_state`,
`found_ap_nb`, and the static buffers `ap_records` (main.c) and
`update_file_path` (fuota_b.c). -/
structure Vars where
  current_state : Int
  found_ap_nb : Nat
  ap_records : List wifi_ap_record_t
  update_file_path : List Char
  deriving DecidableEq, Repr

/-- What the collaborators answer during one pass of the loop. -/
structure Answers where
  wifi : WifiAnswers
  connect_rs : Int
  http : HttpAnswers
  disconnect_rs : Int
  deriving DecidableEq, Repr

/-- The result of one pass of the loop. -/
structure Pass where
  events : List Event
  flow : Flow
  vars : Vars
  deriving DecidableEq, Repr

/-- The body of `while (true)` in `app_main`: the `switch (current_state)`. -/
def loop_body (cfg : Config) (v : Vars) (a : Answers) : Pass :=
  if v.current_state = ST_SCAN then
    let scan := swb_scan_b AP_NB v.ap_records v.found_ap_nb a.wifi
    let v1 : Vars := { v with ap_records := scan.ap_records, found_ap_nb := scan.found_ap_nb }
    let e1 := [Event.swb_scan_b AP_NB]
    if scan.status = SWB_ERROR then
      ⟨e1, Flow.exit_on_fatal_error, v1⟩
    else if scan.status = SWB_SUCCESS then
      if scan.found_ap_nb = 0 then
        ⟨e1 ++ [Event.vTaskDelay_ms WAIT_BEFORE_NEXT_SCAN_MS], Flow.next_iteration, v1⟩
      else
        match is_ota_ap_available cfg.OTA_UPDATE_AP_SSID scan.ap_records scan.found_ap_nb with
        | none => ⟨e1, Flow.undefined, v1⟩
        | some true => ⟨e1, Flow.next_iteration, { v1 with current_state := ST_TRY_OTA }⟩
        | some false => ⟨e1, Flow.exit_on_fatal_error, v1⟩
    else
      ⟨e1, Flow.exit_on_fatal_error, v1⟩
  else if v.current_state = ST_TRY_OTA then
    let e1 := [Event.cwb_connect_b cfg.OTA_UPDATE_AP_SSID cfg.OTA_UPDATE_AP_PASSWORD
      IP_TIMEOUT_MS]
    if a.connect_rs = CWB_OK then
      let ota := ota_update_b cfg.OTA_SERVER_NAME cfg.OTA_SERVER_PORT cfg.server_cert_pem
        cfg.OTA_SERVER_USERNAME cfg.OTA_SERVER_PASSWORD DEV_ID OTA_VERSION
        v.update_file_path a.http
      let v1 : Vars := { v with update_file_path := ota.update_file_path }
      let e2 := e1 ++ [Event.ota_update_b ota.calls]
      if ota.status = OTA_SYS_ERR then
        ⟨e2, Flow.exit_on_fatal_error, v1⟩
      else if ota.status = OTA_CONN_ERR ∨ ota.status = OTA_PARAM_ERR ∨
          ota.status = OTA_NO_UPDATE then
        if ota.status = OTA_CONN_ERR ∨ ota.status = OTA_PARAM_ERR ∨
            ota.status = OTA_NO_UPDATE then
          let e3 := e2 ++ [Event.cwb_disconnect_b]
          if a.disconnect_rs = CWB_OK ∨ a.disconnect_rs = CWB_ALREADY_DIS then
            ⟨e3 ++ [Event.vTaskDelay_ms WAIT_BEFORE_NEXT_SCAN_MS], Flow.next_iteration,
              { v1 with current_state := ST_SCAN }⟩
          else if a.disconnect_rs = CWB_DIS_TIMEOUT ∨ a.disconnect_rs = CWB_SYS_ERR then
            ⟨e3, Flow.exit_on_fatal_error, v1⟩
          else
            ⟨e3, Flow.next_iteration, v1⟩
        else
          ⟨e2, Flow.exit_on_fatal_error, v1⟩
      else if ota.status = OTA_UPDATED then
        ⟨e2 ++ [Event.cwb_disconnect_b, Event.esp_restart], Flow.restarted, v1⟩
      else
        ⟨e2, Flow.exit_on_fatal_error, v1⟩
    else if a.connect_rs = CWB_IP_TIMEOUT ∨ a.connect_rs = CWB_DIS ∨
        a.connect_rs = CWB_CONN_ERR then
      ⟨e1 ++ [Event.vTaskDelay_ms WAIT_BEFORE_NEXT_SCAN_MS], Flow.next_iteration,
        { v with current_state := ST_SCAN }⟩
    else if a.connect_rs = CWB_ALREADY_CON ∨ a.connect_rs = CWB_PARAM_ERR ∨
        a.connect_rs = CWB_SYS_ERR then
      ⟨e1, Flow.exit_on_fatal_error, v⟩
    else
      ⟨e1, Flow.exit_on_fatal_error, v⟩
  else
    ⟨[], Flow.exit_on_fatal_error, v⟩

/-- The code at the label `exit_on_fatal_error`: the delay, then the
restart. -/
def exit_on_fatal_error : List Event :=
  [Event.vTaskDelay_ms WAIT_BEFORE_RESTART_PERIOD_MS, Event.esp_restart]

/-- One pass of the loop of `app_main`, continued by the code at the label
`exit_on_fatal_error` when the pass jumps there. -/
def app_main_pass (cfg : Config) (v : Vars) (a : Answers) : Pass :=
  match (loop_body cfg v a).flow with
  | Flow.exit_on_fatal_error =>
    ⟨(loop_body cfg v a).events ++ exit_on_fatal_error, Flow.restarted,
      (loop_body cfg v a).vars⟩
  | _ => loop_body cfg v a

/-- The call of `ota_update_b` that `app_main` makes: the arguments are the
configured server, the certificate, the credentials, `DEV_ID` and
`OTA_VERSION`. -/
def app_ota_update (cfg : Config) (v : Vars) (a : Answers) : OtaRun :=
  ota_update_b cfg.OTA_SERVER_NAME cfg.OTA_SERVER_PORT cfg.server_cert_pem
    cfg.OTA_SERVER_USERNAME cfg.OTA_SERVER_PASSWORD DEV_ID OTA_VERSION
    v.update_file_path a.http

/-- The loop `while (true)` of `app_main`, run for as many passes as there are
answers in the list: a pass that ends by `break` is followed by the next one,
any other end stops the run. The events of the passes are put one after the
other. -/
def app_main_run (cfg : Config) : Vars → List Answers → Pass
  | v, [] => ⟨[], Flow.next_iteration, v⟩
  | v, a :: rest =>
    match (app_main_pass cfg v a).flow with
    | Flow.next_iteration =>
      ⟨(app_main_pass cfg v a).events ++
          (app_main_run cfg (app_main_pass cfg v a).vars rest).events,
        (app_main_run cfg (app_main_pass cfg v a).vars rest).flow,
        (app_main_run cfg (app_main_pass cfg v a).vars rest).vars⟩
    | _ => app_main_pass cfg v a

/-- A cycle with the outcome "no update", given by the answers of its two
passes: in the first the scan succeeds and the maintenance AP passes the
membership test; in the second the join succeeds, `ota_update_b` returns
`OTA_NO_UPDATE`, and `cwb_disconnect_b` returns `CWB_OK` or
`CWB_ALREADY_DIS`. The content of the static buffers when the pass starts is
left open. -/
def no_update_cycle (cfg : Config) (a_scan a_ota : Answers) : Prop :=
  (∀ ap_records found_ap_nb,
    (swb_scan_b AP_NB ap_records found_ap_nb a_scan.wifi).status = SWB_SUCCESS ∧
    (swb_scan_b AP_NB ap_records found_ap_nb a_scan.wifi).found_ap_nb ≠ 0 ∧
    is_ota_ap_available cfg.OTA_UPDATE_AP_SSID
      (swb_scan_b AP_NB ap_records found_ap_nb a_scan.wifi).ap_records
      (swb_scan_b AP_NB ap_records found_ap_nb a_scan.wifi).found_ap_nb = some true) ∧
  a_ota.connect_rs = CWB_OK ∧
  (∀ update_file_path,
    (ota_update_b cfg.OTA_SERVER_NAME cfg.OTA_SERVER_PORT cfg.server_cert_pem
      cfg.OTA_SERVER_USERNAME cfg.OTA_SERVER_PASSWORD DEV_ID OTA_VERSION
      update_file_path a_ota.http).status = OTA_NO_UPDATE) ∧
  (a_ota.disconnect_rs = CWB_OK ∨ a_ota.disconnect_rs = CWB_ALREADY_DIS)

/-- The answers of the passes of a list of cycles, in order. -/
def cycle_answers : List (Answers × Answers) → List Answers
  | [] => []
  | c :: rest => c.1 :: c.2 :: cycle_answers rest

/-! ## main.c: the start of `app_main` -/

/-- The SDK's `ESP_ERR_NVS_NO_FREE_PAGES` (`ESP_ERR_NVS_BASE + 0x0d`). -/
def ESP_ERR_NVS_NO_FREE_PAGES : Int := 0x110d

/-- The SDK's `ESP_ERR_NVS_NEW_VERSION_FOUND` (`ESP_ERR_NVS_BASE + 0x10`). -/
def ESP_ERR_NVS_NEW_VERSION_FOUND : Int := 0x1110

/-- What the SDK answers to the calls made by `app_main` before its loop;
`nvs_flash_init_again_rs` answers the second call of `nvs_flash_init`. -/
structure StartAnswers where
  nvs_flash_init_rs : Int
  nvs_flash_erase_rs : Int
  nvs_flash_init_again_rs : Int
  esp_netif_init_rs : Int
  esp_event_loop_create_default_rs : Int
  deriving DecidableEq, Repr

/-- The calls that `app_main` makes before its loop. -/
inductive StartCall where
  | vTaskDelay_ms (ms : Nat)
  | nvs_flash_init
  | nvs_flash_erase
  | esp_netif_init
  | esp_event_loop_create_default
  deriving DecidableEq, Repr

/-- The result of the code before the loop: the calls made, and whether it
left by `goto exit_on_fatal_error`. -/
structure Start where
  calls : List StartCall
  fatal : Bool
  deriving DecidableEq, Repr

/-- The code of `app_main` from `esp_netif_init` to the entry of the loop;
`calls` holds the calls made so far. -/
def app_main_start_network (s : StartAnswers) (calls : List StartCall) : Start :=
  if s.esp_netif_init_rs ≠ ESP_OK then
    ⟨calls ++ [StartCall.esp_netif_init], true⟩
  else if s.esp_event_loop_create_default_rs ≠ ESP_OK then
    ⟨calls ++ [StartCall.esp_netif_init, StartCall.esp_event_loop_create_default], true⟩
  else
    ⟨calls ++ [StartCall.esp_netif_init, StartCall.esp_event_loop_create_default], false⟩

/-- The code of `app_main` before its loop: the initial delay, the
initialisation of the NVS (with one erase and retry), of the TCP/IP stack and
of the default event loop. -/
def app_main_start (s : StartAnswers) : Start :=
  let c0 := [StartCall.vTaskDelay_ms WAIT_BEFORE_START_PERIOD_MS, StartCall.nvs_flash_init]
  if s.nvs_flash_init_rs = ESP_ERR_NVS_NO_FREE_PAGES ∨
      s.nvs_flash_init_rs = ESP_ERR_NVS_NEW_VERSION_FOUND then
    if s.nvs_flash_erase_rs ≠ ESP_OK then
      ⟨c0 ++ [StartCall.nvs_flash_erase], true⟩
    else if s.nvs_flash_init_again_rs ≠ ESP_OK then
      ⟨c0 ++ [StartCall.nvs_flash_erase, StartCall.nvs_flash_init], true⟩
    else
      app_main_start_network s (c0 ++ [StartCall.nvs_flash_erase, StartCall.nvs_flash_init])
  else
    app_main_start_network s c0

/-- A run of `app_main`: the calls made before the loop, then the events, the
end and the variables of the loop. -/
structure AppRun where
  start_calls : List StartCall
  events : List Event
  flow : Flow
  vars : Vars
  deriving DecidableEq, Repr

/-- Function `void app_main(void)`, run for as many passes of its loop as there
are answers in the list. `statics` holds the static buffers at the start (its
`current_state` and `found_ap_nb` stand for the uninitialised locals); the loop
is entered with `current_state = ST_SCAN`. A start that jumps to
`exit_on_fatal_error` runs the code at that label. -/
def app_main (cfg : Config) (s : StartAnswers) (statics : Vars) (answers : List Answers) :
    AppRun :=
  if (app_main_start s).fatal = true then
    ⟨(app_main_start s).calls, exit_on_fatal_error, Flow.restarted, statics⟩
  else
    ⟨(app_main_start s).calls,
      (app_main_run cfg { statics with current_state := ST_SCAN } answers).events,
      (app_main_run cfg { statics with current_state := ST_SCAN } answers).flow,
      (app_main_run cfg { statics with current_state := ST_SCAN } answers).vars⟩

/-! ## The connection held by the orchestrator -/

/-- Modelled from the spec: the connection manager (conn_wifi_b.c is not among
the sources; conn_wifi_b.h and the spec give its contract). A connection
exists from a call of `cwb_connect_b` that returned `CWB_OK` until a call of
`cwb_disconnect_b` that returned `CWB_OK` or `CWB_ALREADY_DIS`. The value tells
whether a connection exists after the events of one pass, `connected` telling
whether one existed before. -/
def connection_after (a : Answers) : Bool → List Event → Bool
  | connected, [] => connected
  | connected, Event.cwb_connect_b _ _ _ :: es =>
    connection_after a (connected || decide (a.connect_rs = CWB_OK)) es
  | connected, Event.cwb_disconnect_b :: es =>
    connection_after a
      (connected && !decide (a.disconnect_rs = CWB_OK ∨ a.disconnect_rs = CWB_ALREADY_DIS)) es
  | connected, _ :: es => connection_after a connected es

/-- The calls of one pass respect the connection: `cwb_connect_b` is called
only while no connection exists, `ota_update_b` only while one exists. -/
def calls_respect_connection (a : Answers) : Bool → List Event → Bool
  | _, [] => true
  | connected, Event.cwb_connect_b _ _ _ :: es =>
    !connected &&
      calls_respect_connection a (connected || decide (a.connect_rs = CWB_OK)) es
  | connected, Event.ota_update_b _ :: es =>
    connected && calls_respect_connection a connected es
  | connected, Event.cwb_disconnect_b :: es =>
    calls_respect_connection a
      (connected && !decide (a.disconnect_rs = CWB_OK ∨ a.disconnect_rs = CWB_ALREADY_DIS)) es
  | connected, _ :: es => calls_respect_connection a connected es

/-- The calls of every pass of a run respect the connection, the connection
being carried from one pass to the next. -/
def run_respects_connection (cfg : Config) : Vars → Bool → List Answers → Bool
  | _, _, [] => true
  | v, connected, a :: rest =>
    calls_respect_connection a connected (app_main_pass cfg v a).events &&
      (match (app_main_pass cfg v a).flow with
       | Flow.next_iteration =>
         run_respects_connection cfg (app_main_pass cfg v a).vars
           (connection_after a connected (app_main_pass cfg v a).events) rest
       | _ => true)

/-- The status of `cwb_disconnect_b` is one of the four that conn_wifi_b.h
documents for it. -/
def disconnect_status_documented (a : Answers) : Prop :=
  a.disconnect_rs = CWB_OK ∨ a.disconnect_rs = CWB_ALREADY_DIS ∨
    a.disconnect_rs = CWB_DIS_TIMEOUT ∨ a.disconnect_rs = CWB_SYS_ERR

/-! ## Concrete inputs -/

/-- A configuration with the maintenance AP "Maint-AP" and the server
"srv", port 443. -/
def scenario_cfg : Config :=
  ⟨['M', 'a', 'i', 'n', 't', '-', 'A', 'P'], ['s', 'e', 'c', 'r', 'e', 't'],
    ['s', 'r', 'v'], 443, ['u', 's', 'e', 'r'], ['p', 'a', 's', 's'], ['P', 'E', 'M']⟩

/-- The variables when the loop is entered after a boot: the state is
`ST_SCAN`, the static buffers hold zeros. -/
def boot_vars : Vars :=
  ⟨ST_SCAN, 0, List.replicate 50 (record_of_ssid []), List.replicate 256 NUL⟩

/-- The answers of a Wi-Fi driver that succeeds at every call and has seen
the access points with the given SSIDs. -/
def scan_answers (ssids : List (List Char)) : WifiAnswers :=
  ⟨true, ESP_OK, ESP_OK, ESP_OK, ESP_OK, ESP_OK,
    ssids.map record_of_ssid ++ List.replicate (50 - ssids.length) (record_of_ssid []),
    ESP_OK, ssids.length, ESP_OK⟩

/-- The answers of an HTTP client that succeeds at every call, for a response
with the given status and body (the declared content length is the length of
the body), and of a flasher that returns `https_ota_rs`. -/
def http_answers (status_code : Int) (body : List Char) (https_ota_rs : Int) : HttpAnswers :=
  ⟨true, ESP_OK, body.length, status_code, body, ESP_OK, ESP_OK, https_ota_rs⟩

/-- The variables of `boot_vars` with the state `ST_TRY_OTA`. -/
def try_ota_vars : Vars :=
  { boot_vars with current_state := ST_TRY_OTA }

/-- The answers of a pass of scenario C: the scan returns the single access
point "Maint-AP", the join succeeds, the server answers 204, the
disconnection succeeds. -/
def scenario_c_answers : Answers :=
  ⟨scan_answers [['M', 'a', 'i', 'n', 't', '-', 'A', 'P']], CWB_OK,
    http_answers 204 [] ESP_OK, CWB_OK⟩

/-! ## Lemmas on C strings -/

theorem c_str_nil : c_str [] = [] := rfl

theorem c_str_cons (c : Char) (s : List Char) :
    c_str (c :: s) = if c = NUL then [] else c :: c_str s := by
  unfold c_str
  by_cases h : c = NUL <;> simp [List.takeWhile_cons, h]

theorem strlen_le_length (s : List Char) : strlen s ≤ s.length := by
  unfold strlen c_str
  exact (List.takeWhile_sublist _).length_le

theorem char_sub_eq_zero (a b : Char) (h : a ≠ b) :
    ((a.toNat : Int) - (b.toNat : Int)) ≠ 0 := by
  intro h0
  apply h
  have h1 : a.toNat = b.toNat := by omega
  have h2 := congrArg Char.ofNat h1
  simpa using h2

/-- The result of `strncmp` is zero exactly when the two texts agree on their
first `n` bytes. -/
theorem strncmp_eq_zero_iff (n : Nat) (a b : List Char) :
    strncmp a b n = 0 ↔ (c_str a).take n = (c_str b).take n := by
  induction n generalizing a b with
  | zero => simp [strncmp]
  | succ n ih =>
    cases a with
    | nil =>
      cases b with
      | nil => simp [strncmp, c_str_nil]
      | cons y b =>
        by_cases hy : y = NUL
        · simp [strncmp, c_str_nil, c_str_cons, hy]
        · have hy2 : ¬ NUL = y := fun h => hy h.symm
          simp [strncmp, c_str_nil, c_str_cons, hy, hy2, char_sub_eq_zero NUL y hy2]
    | cons x a =>
      cases b with
      | nil =>
        by_cases hx : x = NUL
        · simp [strncmp, c_str_nil, c_str_cons, hx]
        · simp [strncmp, c_str_nil, c_str_cons, hx, char_sub_eq_zero x NUL hx]
      | cons y b =>
        by_cases hxy : x = y
        · subst hxy
          by_cases hx : x = NUL
          · simp [strncmp, c_str_cons, hx]
          · simp [strncmp, c_str_cons, hx, ih]
        · by_cases hx : x = NUL
          · have hy : ¬ y = NUL := fun h => hxy (hx.trans h.symm)
            have hy2 : ¬ NUL = y := fun h => hy h.symm
            simp [strncmp, c_str_cons, hx, hy, hy2, char_sub_eq_zero NUL y hy2]
          · by_cases hy : y = NUL
            · simp [strncmp, c_str_cons, hx, hy, char_sub_eq_zero x NUL hx]
            · simp [strncmp, c_str_cons, hx, hy, hxy, char_sub_eq_zero x y hxy]

/-- The test made on one record: equal `strlen` and `strncmp` zero over that
length is equality of the two texts. -/
theorem ssid_test_iff (a b : List Char) :
    (strlen a = strlen b ∧ strncmp a b (strlen a) = 0) ↔ c_str a = c_str b := by
  rw [strncmp_eq_zero_iff]
  constructor
  · rintro ⟨hl, ht⟩
    unfold strlen at hl ht
    rw [List.take_length] at ht
    rw [hl, List.take_length] at ht
    exact ht
  · intro h
    unfold strlen
    rw [h]
    exact ⟨rfl, rfl⟩

/-! ## The membership test -/

theorem record_test_iff (ota ssid : List Char) (hs : strlen ssid < 256)
    (ho : strlen ota < 256) :
    (strlen ssid % 256 = strlen ota % 256 ∧ strncmp ssid ota (strlen ssid % 256) = 0) ↔
      c_str ssid = c_str ota := by
  rw [Nat.mod_eq_of_lt hs, Nat.mod_eq_of_lt ho]
  exact ssid_test_iff ssid ota

theorem is_ota_ap_available_loop_spec (ota : List Char) (ap_records : List wifi_ap_record_t)
    (hr : ∀ r ∈ ap_records, r.ssid.length = 33) (ho : strlen ota < 256)
    (left : Nat) :
    ∀ i, i + left ≤ ap_records.length →
      ∃ b, is_ota_ap_available_loop ota ap_records left i = some b ∧
        (b = true ↔ ∃ j r, i ≤ j ∧ j < i + left ∧ ap_records[j]? = some r ∧
          c_str r.ssid = c_str ota) := by
  induction left with
  | zero =>
    intro i _
    refine ⟨false, rfl, ?_⟩
    constructor
    · intro h; cases h
    · rintro ⟨j, r, h1, h2, _⟩; omega
  | succ left ih =>
    intro i hi
    have hlt : i < ap_records.length := by omega
    have hget : ap_records[i]? = some ap_records[i] := List.getElem?_eq_getElem hlt
    have hmem : ap_records[i] ∈ ap_records := List.getElem_mem hlt
    have hs : strlen ap_records[i].ssid < 256 := by
      have := strlen_le_length ap_records[i].ssid
      have := hr _ hmem
      omega
    by_cases htest : c_str ap_records[i].ssid = c_str ota
    · refine ⟨true, ?_, ?_⟩
      · unfold is_ota_ap_available_loop
        simp only [hget]
        rw [if_pos ((record_test_iff ota _ hs ho).mpr htest)]
      · simp only [true_iff]
        exact ⟨i, ap_records[i], le_refl i, by omega, hget, htest⟩
    · obtain ⟨b, hb, hiff⟩ := ih (i + 1) (by omega)
      refine ⟨b, ?_, ?_⟩
      · unfold is_ota_ap_available_loop
        simp only [hget]
        rw [if_neg (fun h => htest ((record_test_iff ota _ hs ho).mp h))]
        exact hb
      · rw [hiff]
        constructor
        · rintro ⟨j, r, h1, h2, h3, h4⟩
          exact ⟨j, r, by omega, by omega, h3, h4⟩
        · rintro ⟨j, r, h1, h2, h3, h4⟩
          have hne : j ≠ i := by
            intro hji
            subst hji
            rw [hget] at h3
            cases h3
            exact htest h4
          exact ⟨j, r, by omega, by omega, h3, h4⟩

/-- C2, as stated, fails: the record of an access point whose SSID is the
three bytes 'M', NUL, 'X' passes the test for the configured SSID "M",
although no SSID in the scan equals "M" in length and bytes. -/
theorem is_ota_ap_available_embedded_nul :
    is_ota_ap_available ['M'] (List.map record_of_ssid [['M', NUL, 'X']]) 1 = some true ∧
    ¬ ∃ i, i < 1 ∧ [['M', NUL, 'X']][i]? = some ['M'] := by
  constructor
  · decide
  · rintro ⟨i, hi, h⟩
    have : i = 0 := by omega
    subst this
    revert h
    decide

/-- C2, amended: for a found count `n` within the array, `ssid` fields of 33
bytes and a configured SSID shorter than 256 bytes, `is_ota_ap_available n`
returns, and it returns true exactly when some record at an index `i < n` has
an `ssid` field whose NUL-terminated text (the bytes before its first NUL)
equals the configured SSID. -/
theorem is_ota_ap_available_iff_text (ota : List Char) (ap_records : List wifi_ap_record_t)
    (n : Nat) (hn : n ≤ ap_records.length)
    (hr : ∀ r ∈ ap_records, r.ssid.length = 33) (ho : strlen ota < 256) :
    ∃ b, is_ota_ap_available ota ap_records n = some b ∧
      (b = true ↔ ∃ i r, i < n ∧ ap_records[i]? = some r ∧ c_str r.ssid = c_str ota) := by
  obtain ⟨b, hb, hiff⟩ := is_ota_ap_available_loop_spec ota ap_records hr ho n 0 (by omega)
  refine ⟨b, hb, ?_⟩
  rw [hiff]
  constructor
  · rintro ⟨j, r, _, h2, h3, h4⟩
    exact ⟨j, r, by omega, h3, h4⟩
  · rintro ⟨j, r, h2, h3, h4⟩
    exact ⟨j, r, Nat.zero_le j, by omega, h3, h4⟩

/-- The amended C2 at a scan of the two access points "Home" and "M", with
the configured SSID "M". -/
theorem is_ota_ap_available_iff_text_witness :
    ∃ b, is_ota_ap_available ['M']
        [record_of_ssid ['H', 'o', 'm', 'e'], record_of_ssid ['M']] 2 = some b ∧
      (b = true ↔ ∃ i r, i < 2 ∧
        [record_of_ssid ['H', 'o', 'm', 'e'], record_of_ssid ['M']][i]? = some r ∧
        c_str r.ssid = c_str ['M']) :=
  is_ota_ap_available_iff_text ['M']
    [record_of_ssid ['H', 'o', 'm', 'e'], record_of_ssid ['M']] 2 (by decide) (by decide)
    (by decide)

/-! ## The protocol client -/

theorem stop_comm_ok (h : HttpAnswers) (hclose : h.close_rs = ESP_OK)
    (hcleanup : h.cleanup_rs = ESP_OK) :
    stop_comm h =
      (OTA_OK, [HttpCall.esp_http_client_close, HttpCall.esp_http_client_cleanup]) := by
  simp [stop_comm, hclose, hcleanup]

/-- C4: when the computed length of the request URL exceeds
`REQUEST_URL_MAX_LENGTH`, `ota_update_b` returns `OTA_PARAM_ERR` and makes no
request for that URL. First request: no call at all is made (no client is
created or opened). Second request (reached after a 200 response with a body
that fits and a clean close): the flasher is not called. -/
theorem ota_update_b_url_too_long (server_name : List Char) (server_port : Nat)
    (cert_pem username password id app_ver update_file_path : List Char) (h : HttpAnswers) :
    (snprintf_length (check_url_text server_name server_port id app_ver) >
        REQUEST_URL_MAX_LENGTH →
      (ota_update_b server_name server_port cert_pem username password id app_ver
          update_file_path h).status = OTA_PARAM_ERR ∧
      (ota_update_b server_name server_port cert_pem username password id app_ver
          update_file_path h).calls = []) ∧
    (snprintf_length (check_url_text server_name server_port id app_ver) ≤
        REQUEST_URL_MAX_LENGTH →
      h.init_ok = true → h.open_rs = ESP_OK → h.content_length ≠ ESP_FAIL →
      h.status_code = 200 → h.content_length ≤ UPDATE_FILE_PATH_MAX_LENGTH →
      h.close_rs = ESP_OK → h.cleanup_rs = ESP_OK →
      snprintf_length (file_url_text server_name server_port
          (esp_http_client_read update_file_path h.body h.content_length)) >
        REQUEST_URL_MAX_LENGTH →
      (ota_update_b server_name server_port cert_pem username password id app_ver
          update_file_path h).status = OTA_PARAM_ERR ∧
      ∀ config, HttpCall.esp_https_ota config ∉
        (ota_update_b server_name server_port cert_pem username password id app_ver
          update_file_path h).calls) := by
  constructor
  · intro hlong
    simp [ota_update_b, hlong]
  · intro hurl hinit hopen hfail hstatus hlen hclose hcleanup hlong
    have hurl2 : ¬ snprintf_length (check_url_text server_name server_port id app_ver) >
        REQUEST_URL_MAX_LENGTH := not_lt.mpr hurl
    have hlen2 : ¬ h.content_length > UPDATE_FILE_PATH_MAX_LENGTH := not_lt.mpr hlen
    unfold ota_update_b
    simp only [hurl2, hinit, hopen, hstatus, hlen2, hfail, hlong,
      stop_comm_ok h hclose hcleanup]
    simp

/-- C4 at a server name of 500 bytes (first URL of 540 bytes), and at a
server name of 300 bytes with a file name of 255 bytes (first URL of 340
bytes, second URL of 574 bytes). -/
theorem ota_update_b_url_too_long_witness :
    ((ota_update_b (List.replicate 500 'a') 443 [] [] [] DEV_ID OTA_VERSION
          (List.replicate 256 NUL) (http_answers 204 [] ESP_OK)).status = OTA_PARAM_ERR ∧
      (ota_update_b (List.replicate 500 'a') 443 [] [] [] DEV_ID OTA_VERSION
          (List.replicate 256 NUL) (http_answers 204 [] ESP_OK)).calls = []) ∧
    ((ota_update_b (List.replicate 300 'a') 443 [] [] [] DEV_ID OTA_VERSION
          (List.replicate 256 NUL)
          (http_answers 200 (List.replicate 255 'f') ESP_OK)).status = OTA_PARAM_ERR ∧
      ∀ config, HttpCall.esp_https_ota config ∉
        (ota_update_b (List.replicate 300 'a') 443 [] [] [] DEV_ID OTA_VERSION
          (List.replicate 256 NUL)
          (http_answers 200 (List.replicate 255 'f') ESP_OK)).calls) :=
  ⟨(ota_update_b_url_too_long (List.replicate 500 'a') 443 [] [] [] DEV_ID OTA_VERSION
      (List.replicate 256 NUL) (http_answers 204 [] ESP_OK)).1 (by decide),
   (ota_update_b_url_too_long (List.replicate 300 'a') 443 [] [] [] DEV_ID OTA_VERSION
      (List.replicate 256 NUL) (http_answers 200 (List.replicate 255 'f') ESP_OK)).2
      (by decide) rfl rfl (by decide) rfl (by decide) rfl rfl (by decide)⟩

/-- C5, the code at a failing input: with a server name of 472 bytes the
first URL has exactly `REQUEST_URL_MAX_LENGTH` = 512 bytes, it passes the
length check, and the URL given to `esp_http_client_init` is that text
without its last byte. -/
theorem ota_update_b_url_of_max_length_truncated :
    snprintf_length (check_url_text (List.replicate 472 'a') 443 DEV_ID OTA_VERSION) =
      REQUEST_URL_MAX_LENGTH ∧
    (ota_update_b (List.replicate 472 'a') 443 [] [] [] DEV_ID OTA_VERSION
      (List.replicate 256 NUL) (http_answers 204 [] ESP_OK)).calls.head? =
      some (HttpCall.esp_http_client_init
        ⟨(check_url_text (List.replicate 472 'a') 443 DEV_ID OTA_VERSION).dropLast,
          [], [], []⟩) := by
  decide

/-- C6, the code at a failing input: a first exchange receives the file name
"old-fw.bin" and its download fails; the next exchange receives the file name
"new", and the URL given to the flasher is `https://srv:443/files/new-fw.bin`,
whose end comes from the earlier file name. -/
theorem ota_update_b_stale_file_name :
    (ota_update_b ['s', 'r', 'v'] 443 [] [] [] DEV_ID OTA_VERSION (List.replicate 256 NUL)
      (http_answers 200 ['o', 'l', 'd', '-', 'f', 'w', '.', 'b', 'i', 'n'] ESP_FAIL)).status =
      OTA_CONN_ERR ∧
    (ota_update_b ['s', 'r', 'v'] 443 [] [] [] DEV_ID OTA_VERSION
      (ota_update_b ['s', 'r', 'v'] 443 [] [] [] DEV_ID OTA_VERSION (List.replicate 256 NUL)
        (http_answers 200 ['o', 'l', 'd', '-', 'f', 'w', '.', 'b', 'i', 'n']
          ESP_FAIL)).update_file_path
      (http_answers 200 ['n', 'e', 'w'] ESP_OK)).calls.getLast? =
      some (HttpCall.esp_https_ota
        ⟨['h', 't', 't', 'p', 's', ':', '/', '/', 's', 'r', 'v', ':', '4', '4', '3',
          '/', 'f', 'i', 'l', 'e', 's', '/', 'n', 'e', 'w', '-', 'f', 'w', '.', 'b', 'i', 'n'],
          [], [], []⟩) := by
  decide

/-- C7: for a 200 response whose declared content length is greater than
`UPDATE_FILE_PATH_MAX_LENGTH`, `ota_update_b` returns `OTA_PARAM_ERR` whatever
`esp_http_client_close` and `esp_http_client_cleanup` answer, makes no call of
`esp_http_client_read`, and leaves `update_file_path` as it was. -/
theorem ota_update_b_content_too_long (server_name : List Char) (server_port : Nat)
    (cert_pem username password id app_ver update_file_path : List Char) (h : HttpAnswers)
    (hurl : snprintf_length (check_url_text server_name server_port id app_ver) ≤
      REQUEST_URL_MAX_LENGTH)
    (hinit : h.init_ok = true) (hopen : h.open_rs = ESP_OK)
    (hstatus : h.status_code = 200)
    (hlen : h.content_length > UPDATE_FILE_PATH_MAX_LENGTH) :
    (ota_update_b server_name server_port cert_pem username password id app_ver
        update_file_path h).status = OTA_PARAM_ERR ∧
    (∀ len, HttpCall.esp_http_client_read len ∉
      (ota_update_b server_name server_port cert_pem username password id app_ver
        update_file_path h).calls) ∧
    (ota_update_b server_name server_port cert_pem username password id app_ver
        update_file_path h).update_file_path = update_file_path := by
  have hfail : h.content_length ≠ ESP_FAIL := by
    unfold UPDATE_FILE_PATH_MAX_LENGTH at hlen
    unfold ESP_FAIL
    omega
  have hurl2 : ¬ snprintf_length (check_url_text server_name server_port id app_ver) >
      REQUEST_URL_MAX_LENGTH := not_lt.mpr hurl
  unfold ota_update_b
  simp only [hurl2, hinit, hopen, hstatus, hlen, hfail, if_true, if_false]
  simp [stop_comm]
  split_ifs <;> simp

/-- C7 at a 200 response with a body of 256 bytes, the close failing. -/
theorem ota_update_b_content_too_long_witness :
    (ota_update_b ['s', 'r', 'v'] 443 [] [] [] DEV_ID OTA_VERSION (List.replicate 256 NUL)
        ⟨true, ESP_OK, 256, 200, List.replicate 256 'f', ESP_FAIL, ESP_OK, ESP_OK⟩).status =
      OTA_PARAM_ERR ∧
    (∀ len, HttpCall.esp_http_client_read len ∉
      (ota_update_b ['s', 'r', 'v'] 443 [] [] [] DEV_ID OTA_VERSION (List.replicate 256 NUL)
        ⟨true, ESP_OK, 256, 200, List.replicate 256 'f', ESP_FAIL, ESP_OK, ESP_OK⟩).calls) ∧
    (ota_update_b ['s', 'r', 'v'] 443 [] [] [] DEV_ID OTA_VERSION (List.replicate 256 NUL)
        ⟨true, ESP_OK, 256, 200, List.replicate 256 'f', ESP_FAIL, ESP_OK,
          ESP_OK⟩).update_file_path = List.replicate 256 NUL :=
  ota_update_b_content_too_long ['s', 'r', 'v'] 443 [] [] [] DEV_ID OTA_VERSION
    (List.replicate 256 NUL)
    ⟨true, ESP_OK, 256, 200, List.replicate 256 'f', ESP_FAIL, ESP_OK, ESP_OK⟩
    (by decide) rfl rfl rfl (by decide)

/-- C8: when the headers are fetched and the connection closes cleanly, the
statuses 400 and 403 give `OTA_PARAM_ERR`, the statuses 404 and 204 give
`OTA_NO_UPDATE`, and for these four statuses neither `esp_http_client_read`
nor `esp_https_ota` is called. -/
theorem ota_update_b_status_table (server_name : List Char) (server_port : Nat)
    (cert_pem username password id app_ver update_file_path : List Char) (h : HttpAnswers)
    (hurl : snprintf_length (check_url_text server_name server_port id app_ver) ≤
      REQUEST_URL_MAX_LENGTH)
    (hinit : h.init_ok = true) (hopen : h.open_rs = ESP_OK)
    (hfail : h.content_length ≠ ESP_FAIL)
    (hclose : h.close_rs = ESP_OK) (hcleanup : h.cleanup_rs = ESP_OK) :
    (h.status_code = 400 ∨ h.status_code = 403 →
      (ota_update_b server_name server_port cert_pem username password id app_ver
        update_file_path h).status = OTA_PARAM_ERR) ∧
    (h.status_code = 404 ∨ h.status_code = 204 →
      (ota_update_b server_name server_port cert_pem username password id app_ver
        update_file_path h).status = OTA_NO_UPDATE) ∧
    (h.status_code = 400 ∨ h.status_code = 403 ∨ h.status_code = 404 ∨
        h.status_code = 204 →
      (∀ len, HttpCall.esp_http_client_read len ∉
        (ota_update_b server_name server_port cert_pem username password id app_ver
          update_file_path h).calls) ∧
      (∀ config, HttpCall.esp_https_ota config ∉
        (ota_update_b server_name server_port cert_pem username password id app_ver
          update_file_path h).calls)) := by
  have hurl2 : ¬ snprintf_length (check_url_text server_name server_port id app_ver) >
      REQUEST_URL_MAX_LENGTH := not_lt.mpr hurl
  unfold ota_update_b
  simp only [hurl2, hinit, hopen, hfail, stop_comm_ok h hclose hcleanup]
  refine ⟨?_, ?_, ?_⟩
  · rintro (hs | hs) <;> simp [hs]
  · rintro (hs | hs) <;> simp [hs]
  · rintro (hs | hs | hs | hs) <;> simp [hs]

/-- C8 at the responses 403 and 404. -/
theorem ota_update_b_status_table_witness :
    (ota_update_b ['s', 'r', 'v'] 443 [] [] [] DEV_ID OTA_VERSION (List.replicate 256 NUL)
        (http_answers 403 [] ESP_OK)).status = OTA_PARAM_ERR ∧
    (ota_update_b ['s', 'r', 'v'] 443 [] [] [] DEV_ID OTA_VERSION (List.replicate 256 NUL)
        (http_answers 404 [] ESP_OK)).status = OTA_NO_UPDATE :=
  ⟨(ota_update_b_status_table ['s', 'r', 'v'] 443 [] [] [] DEV_ID OTA_VERSION
      (List.replicate 256 NUL) (http_answers 403 [] ESP_OK)
      (by decide) rfl rfl (by decide) rfl rfl).1 (Or.inr rfl),
   (ota_update_b_status_table ['s', 'r', 'v'] 443 [] [] [] DEV_ID OTA_VERSION
      (List.replicate 256 NUL) (http_answers 404 [] ESP_OK)
      (by decide) rfl rfl (by decide) rfl rfl).2.1 (Or.inl rfl)⟩

/-- C10: for a 200 response with a body that fits, a clean close and a second
URL within the limit, `ota_update_b` returns `OTA_UPDATED` exactly when
`esp_https_ota` returns `ESP_OK`, and `OTA_CONN_ERR` for every other value
that `esp_https_ota` returns. -/
theorem ota_update_b_flasher_result (server_name : List Char) (server_port : Nat)
    (cert_pem username password id app_ver update_file_path : List Char) (h : HttpAnswers)
    (hurl : snprintf_length (check_url_text server_name server_port id app_ver) ≤
      REQUEST_URL_MAX_LENGTH)
    (hinit : h.init_ok = true) (hopen : h.open_rs = ESP_OK)
    (hfail : h.content_length ≠ ESP_FAIL) (hstatus : h.status_code = 200)
    (hlen : h.content_length ≤ UPDATE_FILE_PATH_MAX_LENGTH)
    (hclose : h.close_rs = ESP_OK) (hcleanup : h.cleanup_rs = ESP_OK)
    (hurl2 : snprintf_length (file_url_text server_name server_port
        (esp_http_client_read update_file_path h.body h.content_length)) ≤
      REQUEST_URL_MAX_LENGTH) :
    ((ota_update_b server_name server_port cert_pem username password id app_ver
        update_file_path h).status = OTA_UPDATED ↔ h.https_ota_rs = ESP_OK) ∧
    (h.https_ota_rs ≠ ESP_OK →
      (ota_update_b server_name server_port cert_pem username password id app_ver
        update_file_path h).status = OTA_CONN_ERR) := by
  have hurl' : ¬ snprintf_length (check_url_text server_name server_port id app_ver) >
      REQUEST_URL_MAX_LENGTH := not_lt.mpr hurl
  have hurl2' : ¬ snprintf_length (file_url_text server_name server_port
        (esp_http_client_read update_file_path h.body h.content_length)) >
      REQUEST_URL_MAX_LENGTH := not_lt.mpr hurl2
  have hlen' : ¬ h.content_length > UPDATE_FILE_PATH_MAX_LENGTH := not_lt.mpr hlen
  unfold ota_update_b
  simp only [hurl', hinit, hopen, hfail, hstatus, hlen', hurl2',
    stop_comm_ok h hclose hcleanup]
  by_cases hota : h.https_ota_rs = ESP_OK
  · simp [hota]
  · simp [hota, OTA_CONN_ERR, OTA_UPDATED]

/-- C10 at the file name "fw-1.2.bin" with a flasher that fails. -/
theorem ota_update_b_flasher_result_witness :
    ((ota_update_b ['s', 'r', 'v'] 443 [] [] [] DEV_ID OTA_VERSION (List.replicate 256 NUL)
        (http_answers 200 ['f', 'w', '-', '1', '.', '2', '.', 'b', 'i', 'n']
          ESP_FAIL)).status = OTA_UPDATED ↔ ESP_FAIL = ESP_OK) ∧
    (ESP_FAIL ≠ ESP_OK →
      (ota_update_b ['s', 'r', 'v'] 443 [] [] [] DEV_ID OTA_VERSION (List.replicate 256 NUL)
        (http_answers 200 ['f', 'w', '-', '1', '.', '2', '.', 'b', 'i', 'n']
          ESP_FAIL)).status = OTA_CONN_ERR) :=
  ota_update_b_flasher_result ['s', 'r', 'v'] 443 [] [] [] DEV_ID OTA_VERSION
    (List.replicate 256 NUL)
    (http_answers 200 ['f', 'w', '-', '1', '.', '2', '.', 'b', 'i', 'n'] ESP_FAIL)
    (by decide) rfl rfl (by decide) rfl (by decide) rfl rfl (by decide)

/-! ## The protocol client: returned status and closing -/

theorem stop_comm_status (h : HttpAnswers) :
    (stop_comm h).1 = OTA_OK ∨ (stop_comm h).1 = OTA_CONN_ERR ∨
      (stop_comm h).1 = OTA_SYS_ERR := by
  unfold stop_comm
  split_ifs <;> simp

theorem stop_comm_result_mem (h : HttpAnswers) (x : Int) :
    (if (stop_comm h).1 ≠ OTA_OK then (stop_comm h).1 else x) = x ∨
    (if (stop_comm h).1 ≠ OTA_OK then (stop_comm h).1 else x) = OTA_CONN_ERR ∨
    (if (stop_comm h).1 ≠ OTA_OK then (stop_comm h).1 else x) = OTA_SYS_ERR := by
  rcases stop_comm_status h with hs | hs | hs <;> rw [hs] <;> simp [OTA_OK, OTA_CONN_ERR, OTA_SYS_ERR]

/-- The status returned by `ota_update_b` is one of the five documented
values. -/
theorem ota_update_b_status_mem (server_name : List Char) (server_port : Nat)
    (cert_pem username password id app_ver update_file_path : List Char) (h : HttpAnswers) :
    (ota_update_b server_name server_port cert_pem username password id app_ver
        update_file_path h).status ∈
      [OTA_UPDATED, OTA_NO_UPDATE, OTA_PARAM_ERR, OTA_CONN_ERR, OTA_SYS_ERR] := by
  unfold ota_update_b
  dsimp only
  by_cases h1 : snprintf_length (check_url_text server_name server_port id app_ver) >
      REQUEST_URL_MAX_LENGTH
  · rw [if_pos h1]; dsimp only; decide
  rw [if_neg h1]
  by_cases h2 : h.init_ok = false
  · rw [if_pos h2]; dsimp only; decide
  rw [if_neg h2]
  by_cases h3 : h.open_rs ≠ ESP_OK
  · rw [if_pos h3]; dsimp only; decide
  rw [if_neg h3]
  by_cases h4 : h.content_length = ESP_FAIL
  · rw [if_pos h4]; dsimp only; decide
  rw [if_neg h4]
  have hsc := stop_comm_status h
  by_cases hne : (stop_comm h).1 ≠ OTA_OK
  · have hsc2 : (stop_comm h).1 ∈
        [OTA_UPDATED, OTA_NO_UPDATE, OTA_PARAM_ERR, OTA_CONN_ERR, OTA_SYS_ERR] := by
      rcases hsc with e | e | e
      · exact absurd e hne
      · rw [e]; decide
      · rw [e]; decide
    simp only [if_pos hne]
    by_cases h400 : h.status_code = 400
    · rw [if_pos h400]; exact hsc2
    rw [if_neg h400]
    by_cases h403 : h.status_code = 403
    · rw [if_pos h403]; exact hsc2
    rw [if_neg h403]
    by_cases h404 : h.status_code = 404
    · rw [if_pos h404]; exact hsc2
    rw [if_neg h404]
    by_cases h204 : h.status_code = 204
    · rw [if_pos h204]; exact hsc2
    rw [if_neg h204]
    by_cases h200 : h.status_code = 200
    · rw [if_pos h200]
      by_cases hlen : h.content_length > UPDATE_FILE_PATH_MAX_LENGTH
      · rw [if_pos hlen]; dsimp only; decide
      · rw [if_neg hlen]; exact hsc2
    · rw [if_neg h200]; dsimp only; decide
  · simp only [if_neg hne]
    by_cases h400 : h.status_code = 400
    · rw [if_pos h400]; dsimp only; decide
    rw [if_neg h400]
    by_cases h403 : h.status_code = 403
    · rw [if_pos h403]; dsimp only; decide
    rw [if_neg h403]
    by_cases h404 : h.status_code = 404
    · rw [if_pos h404]; dsimp only; decide
    rw [if_neg h404]
    by_cases h204 : h.status_code = 204
    · rw [if_pos h204]; dsimp only; decide
    rw [if_neg h204]
    by_cases h200 : h.status_code = 200
    · rw [if_pos h200]
      by_cases hlen : h.content_length > UPDATE_FILE_PATH_MAX_LENGTH
      · rw [if_pos hlen]; dsimp only; decide
      rw [if_neg hlen]
      by_cases hl2 : snprintf_length (file_url_text server_name server_port
          (esp_http_client_read update_file_path h.body h.content_length)) >
          REQUEST_URL_MAX_LENGTH
      · rw [if_pos hl2]; dsimp only; decide
      rw [if_neg hl2]
      by_cases hota : h.https_ota_rs ≠ ESP_OK
      · rw [if_pos hota]; dsimp only; decide
      · rw [if_neg hota]; dsimp only; decide
    · rw [if_neg h200]; dsimp only; decide

theorem stop_comm_close_failed (h : HttpAnswers) (hclose : h.close_rs ≠ ESP_OK) :
    stop_comm h = (OTA_CONN_ERR, [HttpCall.esp_http_client_close]) := by
  simp [stop_comm, hclose]

theorem stop_comm_cleanup_failed (h : HttpAnswers) (hclose : h.close_rs = ESP_OK)
    (hcleanup : h.cleanup_rs ≠ ESP_OK) :
    stop_comm h =
      (OTA_SYS_ERR, [HttpCall.esp_http_client_close, HttpCall.esp_http_client_cleanup]) := by
  simp [stop_comm, hclose, hcleanup]

/-- C11: whatever the arguments, the content of `update_file_path` and the
answers of the HTTP client and of the flasher, the status returned by
`ota_update_b` is one of `OTA_UPDATED`, `OTA_NO_UPDATE`, `OTA_PARAM_ERR`,
`OTA_CONN_ERR`, `OTA_SYS_ERR`, and it is not `OTA_OK`. -/
theorem ota_update_b_status_range (server_name : List Char) (server_port : Nat)
    (cert_pem username password id app_ver update_file_path : List Char) (h : HttpAnswers) :
    (ota_update_b server_name server_port cert_pem username password id app_ver
        update_file_path h).status ∈
      [OTA_UPDATED, OTA_NO_UPDATE, OTA_PARAM_ERR, OTA_CONN_ERR, OTA_SYS_ERR] ∧
    (ota_update_b server_name server_port cert_pem username password id app_ver
        update_file_path h).status ≠ OTA_OK := by
  have hmem := ota_update_b_status_mem server_name server_port cert_pem username password
    id app_ver update_file_path h
  refine ⟨hmem, ?_⟩
  intro h0
  rw [h0] at hmem
  revert hmem
  decide

/-- C12, as stated, fails: for a 400 response `ota_update_b` returns
`OTA_CONN_ERR`, not `OTA_PARAM_ERR`, when `esp_http_client_close` fails. -/
theorem ota_update_b_close_failure_replaces_param_err :
    (ota_update_b ['s', 'r', 'v'] 443 [] [] [] DEV_ID OTA_VERSION (List.replicate 256 NUL)
        ⟨true, ESP_OK, 0, 400, [], ESP_FAIL, ESP_OK, ESP_OK⟩).status = OTA_CONN_ERR ∧
    (ota_update_b ['s', 'r', 'v'] 443 [] [] [] DEV_ID OTA_VERSION (List.replicate 256 NUL)
        ⟨true, ESP_OK, 0, 400, [], ESP_FAIL, ESP_OK, ESP_OK⟩).status ≠ OTA_PARAM_ERR := by
  decide

/-- C12, amended: for a 400 or 403 response `ota_update_b` returns
`OTA_PARAM_ERR` when the connection closes cleanly; when
`esp_http_client_close` fails it returns `OTA_CONN_ERR`, and when
`esp_http_client_cleanup` fails it returns `OTA_SYS_ERR`. -/
theorem ota_update_b_bad_request_close (server_name : List Char) (server_port : Nat)
    (cert_pem username password id app_ver update_file_path : List Char) (h : HttpAnswers)
    (hurl : snprintf_length (check_url_text server_name server_port id app_ver) ≤
      REQUEST_URL_MAX_LENGTH)
    (hinit : h.init_ok = true) (hopen : h.open_rs = ESP_OK)
    (hfail : h.content_length ≠ ESP_FAIL)
    (hstatus : h.status_code = 400 ∨ h.status_code = 403) :
    (h.close_rs = ESP_OK → h.cleanup_rs = ESP_OK →
      (ota_update_b server_name server_port cert_pem username password id app_ver
        update_file_path h).status = OTA_PARAM_ERR) ∧
    (h.close_rs ≠ ESP_OK →
      (ota_update_b server_name server_port cert_pem username password id app_ver
        update_file_path h).status = OTA_CONN_ERR) ∧
    (h.close_rs = ESP_OK → h.cleanup_rs ≠ ESP_OK →
      (ota_update_b server_name server_port cert_pem username password id app_ver
        update_file_path h).status = OTA_SYS_ERR) := by
  have hurl2 : ¬ snprintf_length (check_url_text server_name server_port id app_ver) >
      REQUEST_URL_MAX_LENGTH := not_lt.mpr hurl
  unfold ota_update_b
  simp only [hurl2, hinit, hopen, hfail]
  refine ⟨?_, ?_, ?_⟩
  · intro hclose hcleanup
    rw [stop_comm_ok h hclose hcleanup]
    rcases hstatus with hs | hs <;> simp [hs]
  · intro hclose
    rw [stop_comm_close_failed h hclose]
    rcases hstatus with hs | hs <;> simp [hs, OTA_CONN_ERR, OTA_OK]
  · intro hclose hcleanup
    rw [stop_comm_cleanup_failed h hclose hcleanup]
    rcases hstatus with hs | hs <;> simp [hs, OTA_SYS_ERR, OTA_OK]

/-- The amended C12 at a 403 response with a failing close. -/
theorem ota_update_b_bad_request_close_witness :
    (ota_update_b ['s', 'r', 'v'] 443 [] [] [] DEV_ID OTA_VERSION (List.replicate 256 NUL)
        ⟨true, ESP_OK, 0, 403, [], ESP_FAIL, ESP_OK, ESP_OK⟩).status = OTA_CONN_ERR :=
  (ota_update_b_bad_request_close ['s', 'r', 'v'] 443 [] [] [] DEV_ID OTA_VERSION
    (List.replicate 256 NUL) ⟨true, ESP_OK, 0, 403, [], ESP_FAIL, ESP_OK, ESP_OK⟩
    (by decide) rfl rfl (by decide) (Or.inr rfl)).2.1 (by decide)

/-- C13: after a 200 response whose body was read (content length within
`UPDATE_FILE_PATH_MAX_LENGTH`), `ota_update_b` returns `OTA_CONN_ERR` when
`esp_http_client_close` fails and `OTA_SYS_ERR` when `esp_http_client_cleanup`
fails; in both cases the read was made, `esp_https_ota` is not called and the
status is not `OTA_UPDATED`. -/
theorem ota_update_b_close_failure_after_read (server_name : List Char) (server_port : Nat)
    (cert_pem username password id app_ver update_file_path : List Char) (h : HttpAnswers)
    (hurl : snprintf_length (check_url_text server_name server_port id app_ver) ≤
      REQUEST_URL_MAX_LENGTH)
    (hinit : h.init_ok = true) (hopen : h.open_rs = ESP_OK)
    (hfail : h.content_length ≠ ESP_FAIL) (hstatus : h.status_code = 200)
    (hlen : h.content_length ≤ UPDATE_FILE_PATH_MAX_LENGTH) :
    (h.close_rs ≠ ESP_OK →
      (ota_update_b server_name server_port cert_pem username password id app_ver
        update_file_path h).status = OTA_CONN_ERR) ∧
    (h.close_rs = ESP_OK → h.cleanup_rs ≠ ESP_OK →
      (ota_update_b server_name server_port cert_pem username password id app_ver
        update_file_path h).status = OTA_SYS_ERR) ∧
    (h.close_rs ≠ ESP_OK ∨ h.cleanup_rs ≠ ESP_OK →
      HttpCall.esp_http_client_read h.content_length ∈
        (ota_update_b server_name server_port cert_pem username password id app_ver
          update_file_path h).calls ∧
      (∀ config, HttpCall.esp_https_ota config ∉
        (ota_update_b server_name server_port cert_pem username password id app_ver
          update_file_path h).calls) ∧
      (ota_update_b server_name server_port cert_pem username password id app_ver
        update_file_path h).status ≠ OTA_UPDATED) := by
  have hurl2 : ¬ snprintf_length (check_url_text server_name server_port id app_ver) >
      REQUEST_URL_MAX_LENGTH := not_lt.mpr hurl
  have hlen2 : ¬ h.content_length > UPDATE_FILE_PATH_MAX_LENGTH := not_lt.mpr hlen
  unfold ota_update_b
  simp only [hurl2, hinit, hopen, hfail, hstatus, hlen2]
  refine ⟨?_, ?_, ?_⟩
  · intro hclose
    rw [stop_comm_close_failed h hclose]
    simp [OTA_CONN_ERR, OTA_OK]
  · intro hclose hcleanup
    rw [stop_comm_cleanup_failed h hclose hcleanup]
    simp [OTA_SYS_ERR, OTA_OK]
  · intro hbad
    by_cases hclose : h.close_rs = ESP_OK
    · have hcleanup : h.cleanup_rs ≠ ESP_OK := by
        rcases hbad with hb | hb
        · exact absurd hclose hb
        · exact hb
      rw [stop_comm_cleanup_failed h hclose hcleanup]
      simp [OTA_SYS_ERR, OTA_OK, OTA_UPDATED]
    · rw [stop_comm_close_failed h hclose]
      simp [OTA_CONN_ERR, OTA_OK, OTA_UPDATED]

/-- C13 at the file name "fw-1.2.bin" with a failing cleanup. -/
theorem ota_update_b_close_failure_after_read_witness :
    (ota_update_b ['s', 'r', 'v'] 443 [] [] [] DEV_ID OTA_VERSION (List.replicate 256 NUL)
        ⟨true, ESP_OK, 10, 200, ['f', 'w', '-', '1', '.', '2', '.', 'b', 'i', 'n'],
          ESP_OK, ESP_FAIL, ESP_OK⟩).status = OTA_SYS_ERR :=
  (ota_update_b_close_failure_after_read ['s', 'r', 'v'] 443 [] [] [] DEV_ID OTA_VERSION
    (List.replicate 256 NUL)
    ⟨true, ESP_OK, 10, 200, ['f', 'w', '-', '1', '.', '2', '.', 'b', 'i', 'n'],
      ESP_OK, ESP_FAIL, ESP_OK⟩
    (by decide) rfl rfl (by decide) rfl (by decide)).2.1 rfl (by decide)

/-! ## The orchestrator -/

/-- A pass in `ST_SCAN` whose scan succeeds with at least one record, none of
which passes the membership test, continues at `exit_on_fatal_error`. -/
theorem scan_pass_without_ota_ap (cfg : Config) (v : Vars) (a : Answers)
    (hstate : v.current_state = ST_SCAN)
    (hscan : (swb_scan_b AP_NB v.ap_records v.found_ap_nb a.wifi).status = SWB_SUCCESS)
    (hfound : (swb_scan_b AP_NB v.ap_records v.found_ap_nb a.wifi).found_ap_nb ≠ 0)
    (habsent : is_ota_ap_available cfg.OTA_UPDATE_AP_SSID
      (swb_scan_b AP_NB v.ap_records v.found_ap_nb a.wifi).ap_records
      (swb_scan_b AP_NB v.ap_records v.found_ap_nb a.wifi).found_ap_nb = some false) :
    (app_main_pass cfg v a).events =
      [Event.swb_scan_b AP_NB, Event.vTaskDelay_ms WAIT_BEFORE_RESTART_PERIOD_MS,
        Event.esp_restart] ∧
    (app_main_pass cfg v a).flow = Flow.restarted := by
  have hbody : loop_body cfg v a =
      ⟨[Event.swb_scan_b AP_NB], Flow.exit_on_fatal_error,
        { v with
          ap_records := (swb_scan_b AP_NB v.ap_records v.found_ap_nb a.wifi).ap_records,
          found_ap_nb := (swb_scan_b AP_NB v.ap_records v.found_ap_nb a.wifi).found_ap_nb }⟩ := by
    unfold loop_body
    simp [hstate, hscan, hfound, habsent, SWB_SUCCESS, SWB_ERROR]
  simp [app_main_pass, hbody, exit_on_fatal_error]

/-- A pass in `ST_TRY_OTA` with the outcome `OTA_NO_UPDATE` and a status of
`cwb_disconnect_b` outside the four tested ones ends by `break`, the state
unchanged. -/
theorem try_ota_pass_unexpected_disconnect (cfg : Config) (v : Vars) (a : Answers)
    (hstate : v.current_state = ST_TRY_OTA) (hconn : a.connect_rs = CWB_OK)
    (hota : (ota_update_b cfg.OTA_SERVER_NAME cfg.OTA_SERVER_PORT cfg.server_cert_pem
        cfg.OTA_SERVER_USERNAME cfg.OTA_SERVER_PASSWORD DEV_ID OTA_VERSION
        v.update_file_path a.http).status = OTA_NO_UPDATE)
    (h1 : a.disconnect_rs ≠ CWB_OK) (h2 : a.disconnect_rs ≠ CWB_ALREADY_DIS)
    (h3 : a.disconnect_rs ≠ CWB_DIS_TIMEOUT) (h4 : a.disconnect_rs ≠ CWB_SYS_ERR) :
    (app_main_pass cfg v a).flow = Flow.next_iteration ∧
    (app_main_pass cfg v a).vars.current_state = ST_TRY_OTA ∧
    (app_main_pass cfg v a).events =
      [Event.cwb_connect_b cfg.OTA_UPDATE_AP_SSID cfg.OTA_UPDATE_AP_PASSWORD IP_TIMEOUT_MS,
       Event.ota_update_b (ota_update_b cfg.OTA_SERVER_NAME cfg.OTA_SERVER_PORT
        cfg.server_cert_pem cfg.OTA_SERVER_USERNAME cfg.OTA_SERVER_PASSWORD DEV_ID
        OTA_VERSION v.update_file_path a.http).calls,
       Event.cwb_disconnect_b] := by
  have hbody : loop_body cfg v a =
      ⟨[Event.cwb_connect_b cfg.OTA_UPDATE_AP_SSID cfg.OTA_UPDATE_AP_PASSWORD IP_TIMEOUT_MS,
       Event.ota_update_b (ota_update_b cfg.OTA_SERVER_NAME cfg.OTA_SERVER_PORT
        cfg.server_cert_pem cfg.OTA_SERVER_USERNAME cfg.OTA_SERVER_PASSWORD DEV_ID
        OTA_VERSION v.update_file_path a.http).calls,
       Event.cwb_disconnect_b], Flow.next_iteration,
        { v with update_file_path := (ota_update_b cfg.OTA_SERVER_NAME
            cfg.OTA_SERVER_PORT cfg.server_cert_pem cfg.OTA_SERVER_USERNAME
            cfg.OTA_SERVER_PASSWORD DEV_ID OTA_VERSION v.update_file_path
            a.http).update_file_path }⟩ := by
    unfold loop_body
    simp [hstate, hconn, hota, h1, h2, h3, h4, ST_TRY_OTA, ST_SCAN, OTA_NO_UPDATE,
      OTA_SYS_ERR]
  simp [app_main_pass, hbody, hstate]

/-- C1, the code at a failing input (scenario B): the scan succeeds and
returns the single access point "Home", the configured SSID is "Maint-AP";
the pass does not wait `WAIT_BEFORE_NEXT_SCAN_MS` and go on in `ST_SCAN`, it
jumps to `exit_on_fatal_error`: pre-restart delay, then restart. -/
theorem scan_without_ota_ap_restarts :
    (swb_scan_b AP_NB boot_vars.ap_records boot_vars.found_ap_nb
      (scan_answers [['H', 'o', 'm', 'e']])).status = SWB_SUCCESS ∧
    (swb_scan_b AP_NB boot_vars.ap_records boot_vars.found_ap_nb
      (scan_answers [['H', 'o', 'm', 'e']])).found_ap_nb = 1 ∧
    (app_main_pass scenario_cfg boot_vars
      ⟨scan_answers [['H', 'o', 'm', 'e']], CWB_OK, http_answers 204 [] ESP_OK,
        CWB_OK⟩).events =
      [Event.swb_scan_b 50, Event.vTaskDelay_ms WAIT_BEFORE_RESTART_PERIOD_MS,
        Event.esp_restart] ∧
    (app_main_pass scenario_cfg boot_vars
      ⟨scan_answers [['H', 'o', 'm', 'e']], CWB_OK, http_answers 204 [] ESP_OK,
        CWB_OK⟩).flow = Flow.restarted := by
  decide

/-- C3, the code at a failing input: in `ST_TRY_OTA` the join succeeds, the
server answers 204, and `cwb_disconnect_b` returns `CWB_CONN_ERR`, a status
outside the four it is documented to return; the pass ends by `break`: no
delay, no restart, the state is still `ST_TRY_OTA` and the loop goes on. -/
theorem unexpected_disconnect_status_continues :
    (app_main_pass scenario_cfg { boot_vars with current_state := ST_TRY_OTA }
      ⟨scan_answers [], CWB_OK, http_answers 204 [] ESP_OK, CWB_CONN_ERR⟩).flow =
      Flow.next_iteration ∧
    (app_main_pass scenario_cfg { boot_vars with current_state := ST_TRY_OTA }
      ⟨scan_answers [], CWB_OK, http_answers 204 [] ESP_OK,
        CWB_CONN_ERR⟩).vars.current_state = ST_TRY_OTA ∧
    (app_main_pass scenario_cfg { boot_vars with current_state := ST_TRY_OTA }
      ⟨scan_answers [], CWB_OK, http_answers 204 [] ESP_OK,
        CWB_CONN_ERR⟩).events.getLast? = some Event.cwb_disconnect_b ∧
    Event.esp_restart ∉
      (app_main_pass scenario_cfg { boot_vars with current_state := ST_TRY_OTA }
        ⟨scan_answers [], CWB_OK, http_answers 204 [] ESP_OK, CWB_CONN_ERR⟩).events := by
  decide

/-- C9: for every HTTP status outside 200, 204, 400, 403 and 404 received in
the check phase `ota_update_b` returns `OTA_SYS_ERR`; and a pass of the
orchestrator in which `ota_update_b` returns `OTA_SYS_ERR` continues at
`exit_on_fatal_error`: its calls are the join, `ota_update_b`, the delay of
`WAIT_BEFORE_RESTART_PERIOD_MS` and `esp_restart`. -/
theorem unmodeled_http_status_restarts (server_name : List Char) (server_port : Nat)
    (cert_pem username password id app_ver update_file_path : List Char) (h : HttpAnswers)
    (cfg : Config) (v : Vars) (a : Answers) :
    (snprintf_length (check_url_text server_name server_port id app_ver) ≤
        REQUEST_URL_MAX_LENGTH →
      h.init_ok = true → h.open_rs = ESP_OK → h.content_length ≠ ESP_FAIL →
      h.status_code ≠ 200 → h.status_code ≠ 204 → h.status_code ≠ 400 →
      h.status_code ≠ 403 → h.status_code ≠ 404 →
      (ota_update_b server_name server_port cert_pem username password id app_ver
        update_file_path h).status = OTA_SYS_ERR) ∧
    (v.current_state = ST_TRY_OTA → a.connect_rs = CWB_OK →
      (ota_update_b cfg.OTA_SERVER_NAME cfg.OTA_SERVER_PORT cfg.server_cert_pem
        cfg.OTA_SERVER_USERNAME cfg.OTA_SERVER_PASSWORD DEV_ID OTA_VERSION
        v.update_file_path a.http).status = OTA_SYS_ERR →
      (app_main_pass cfg v a).events =
        [Event.cwb_connect_b cfg.OTA_UPDATE_AP_SSID cfg.OTA_UPDATE_AP_PASSWORD IP_TIMEOUT_MS,
         Event.ota_update_b (ota_update_b cfg.OTA_SERVER_NAME cfg.OTA_SERVER_PORT
          cfg.server_cert_pem cfg.OTA_SERVER_USERNAME cfg.OTA_SERVER_PASSWORD DEV_ID
          OTA_VERSION v.update_file_path a.http).calls,
         Event.vTaskDelay_ms WAIT_BEFORE_RESTART_PERIOD_MS, Event.esp_restart] ∧
      (app_main_pass cfg v a).flow = Flow.restarted) := by
  constructor
  · intro hurl hinit hopen hfail h200 h204 h400 h403 h404
    have hurl' : ¬ snprintf_length (check_url_text server_name server_port id app_ver) >
        REQUEST_URL_MAX_LENGTH := not_lt.mpr hurl
    unfold ota_update_b
    simp [hurl', hinit, hopen, hfail, h200, h204, h400, h403, h404]
  · intro hstate hconn hota
    have hbody : loop_body cfg v a =
        ⟨[Event.cwb_connect_b cfg.OTA_UPDATE_AP_SSID cfg.OTA_UPDATE_AP_PASSWORD
            IP_TIMEOUT_MS,
          Event.ota_update_b (ota_update_b cfg.OTA_SERVER_NAME cfg.OTA_SERVER_PORT
            cfg.server_cert_pem cfg.OTA_SERVER_USERNAME cfg.OTA_SERVER_PASSWORD DEV_ID
            OTA_VERSION v.update_file_path a.http).calls], Flow.exit_on_fatal_error,
          { v with update_file_path := (ota_update_b cfg.OTA_SERVER_NAME
            cfg.OTA_SERVER_PORT cfg.server_cert_pem cfg.OTA_SERVER_USERNAME
            cfg.OTA_SERVER_PASSWORD DEV_ID OTA_VERSION v.update_file_path
            a.http).update_file_path }⟩ := by
      unfold loop_body
      simp [hstate, hconn, hota, ST_TRY_OTA, ST_SCAN]
    simp [app_main_pass, hbody, exit_on_fatal_error]

/-- C9 at scenario F: the join succeeds and the check phase receives the
status 500. -/
theorem unmodeled_http_status_restarts_witness :
    (ota_update_b scenario_cfg.OTA_SERVER_NAME scenario_cfg.OTA_SERVER_PORT
        scenario_cfg.server_cert_pem scenario_cfg.OTA_SERVER_USERNAME
        scenario_cfg.OTA_SERVER_PASSWORD DEV_ID OTA_VERSION (List.replicate 256 NUL)
        (http_answers 500 [] ESP_OK)).status = OTA_SYS_ERR ∧
    (app_main_pass scenario_cfg { boot_vars with current_state := ST_TRY_OTA }
      ⟨scan_answers [], CWB_OK, http_answers 500 [] ESP_OK, CWB_OK⟩).events.drop 2 =
      [Event.vTaskDelay_ms WAIT_BEFORE_RESTART_PERIOD_MS, Event.esp_restart] ∧
    (app_main_pass scenario_cfg { boot_vars with current_state := ST_TRY_OTA }
      ⟨scan_answers [], CWB_OK, http_answers 500 [] ESP_OK, CWB_OK⟩).flow =
      Flow.restarted :=
  ⟨(unmodeled_http_status_restarts scenario_cfg.OTA_SERVER_NAME
      scenario_cfg.OTA_SERVER_PORT scenario_cfg.server_cert_pem
      scenario_cfg.OTA_SERVER_USERNAME scenario_cfg.OTA_SERVER_PASSWORD DEV_ID OTA_VERSION
      (List.replicate 256 NUL) (http_answers 500 [] ESP_OK) scenario_cfg
      { boot_vars with current_state := ST_TRY_OTA }
      ⟨scan_answers [], CWB_OK, http_answers 500 [] ESP_OK, CWB_OK⟩).1
      (by decide) rfl rfl (by decide) (by decide) (by decide) (by decide) (by decide)
      (by decide),
   by
    have hpass := (unmodeled_http_status_restarts scenario_cfg.OTA_SERVER_NAME
      scenario_cfg.OTA_SERVER_PORT scenario_cfg.server_cert_pem
      scenario_cfg.OTA_SERVER_USERNAME scenario_cfg.OTA_SERVER_PASSWORD DEV_ID OTA_VERSION
      (List.replicate 256 NUL) (http_answers 500 [] ESP_OK) scenario_cfg
      { boot_vars with current_state := ST_TRY_OTA }
      ⟨scan_answers [], CWB_OK, http_answers 500 [] ESP_OK, CWB_OK⟩).2 rfl rfl (by decide)
    exact ⟨by rw [hpass.1]; rfl, hpass.2⟩⟩

/-! ## The orchestrator: passes and runs -/

theorem app_main_run_cons_next (cfg : Config) (v : Vars) (a : Answers) (rest : List Answers)
    (hflow : (app_main_pass cfg v a).flow = Flow.next_iteration) :
    app_main_run cfg v (a :: rest) =
      ⟨(app_main_pass cfg v a).events ++
          (app_main_run cfg (app_main_pass cfg v a).vars rest).events,
        (app_main_run cfg (app_main_pass cfg v a).vars rest).flow,
        (app_main_run cfg (app_main_pass cfg v a).vars rest).vars⟩ := by
  rw [app_main_run, hflow]

theorem app_main_run_cons_restarted (cfg : Config) (v : Vars) (a : Answers)
    (rest : List Answers) (hflow : (app_main_pass cfg v a).flow = Flow.restarted) :
    app_main_run cfg v (a :: rest) = app_main_pass cfg v a := by
  rw [app_main_run, hflow]

theorem app_main_pass_of_break (cfg : Config) (v : Vars) (a : Answers) (e : List Event)
    (w : Vars) (hbody : loop_body cfg v a = ⟨e, Flow.next_iteration, w⟩) :
    app_main_pass cfg v a = ⟨e, Flow.next_iteration, w⟩ := by
  simp [app_main_pass, hbody]

theorem app_main_pass_of_restart (cfg : Config) (v : Vars) (a : Answers) (e : List Event)
    (w : Vars) (hbody : loop_body cfg v a = ⟨e, Flow.restarted, w⟩) :
    app_main_pass cfg v a = ⟨e, Flow.restarted, w⟩ := by
  simp [app_main_pass, hbody]

theorem app_main_pass_of_fatal (cfg : Config) (v : Vars) (a : Answers) (e : List Event)
    (w : Vars) (hbody : loop_body cfg v a = ⟨e, Flow.exit_on_fatal_error, w⟩) :
    app_main_pass cfg v a =
      ⟨e ++ [Event.vTaskDelay_ms WAIT_BEFORE_RESTART_PERIOD_MS, Event.esp_restart],
        Flow.restarted, w⟩ := by
  simp [app_main_pass, hbody, exit_on_fatal_error]

/-- A pass in `ST_TRY_OTA` with a recoverable outcome of `ota_update_b` and a
status `CWB_OK` or `CWB_ALREADY_DIS` of `cwb_disconnect_b`. -/
theorem try_ota_pass_recoverable (cfg : Config) (v : Vars) (a : Answers)
    (hstate : v.current_state = ST_TRY_OTA) (hconn : a.connect_rs = CWB_OK)
    (hota : (app_ota_update cfg v a).status = OTA_NO_UPDATE ∨
      (app_ota_update cfg v a).status = OTA_CONN_ERR ∨
      (app_ota_update cfg v a).status = OTA_PARAM_ERR)
    (hdis : a.disconnect_rs = CWB_OK ∨ a.disconnect_rs = CWB_ALREADY_DIS) :
    app_main_pass cfg v a =
      ⟨[Event.cwb_connect_b cfg.OTA_UPDATE_AP_SSID cfg.OTA_UPDATE_AP_PASSWORD IP_TIMEOUT_MS,
        Event.ota_update_b (app_ota_update cfg v a).calls, Event.cwb_disconnect_b,
        Event.vTaskDelay_ms WAIT_BEFORE_NEXT_SCAN_MS], Flow.next_iteration,
        { v with update_file_path := (app_ota_update cfg v a).update_file_path,
                 current_state := ST_SCAN }⟩ := by
  apply app_main_pass_of_break
  unfold app_ota_update at hota ⊢
  unfold loop_body
  dsimp only
  generalize ota_update_b cfg.OTA_SERVER_NAME cfg.OTA_SERVER_PORT cfg.server_cert_pem
    cfg.OTA_SERVER_USERNAME cfg.OTA_SERVER_PASSWORD DEV_ID OTA_VERSION
    v.update_file_path a.http = o at hota ⊢
  have hrec : o.status = OTA_CONN_ERR ∨ o.status = OTA_PARAM_ERR ∨
      o.status = OTA_NO_UPDATE := by
    rcases hota with e | e | e
    · exact Or.inr (Or.inr e)
    · exact Or.inl e
    · exact Or.inr (Or.inl e)
  have hsys : o.status ≠ OTA_SYS_ERR := by
    rcases hota with e | e | e <;> rw [e] <;> decide
  have hs : ¬ ST_TRY_OTA = ST_SCAN := by decide
  rw [hstate, if_neg hs, if_pos rfl, if_pos hconn, if_neg hsys, if_pos hrec, if_pos hrec,
    if_pos hdis]
  rfl

/-- Every pass in `ST_SCAN` starts with the call of `swb_scan_b`. -/
theorem scan_pass_first_event (cfg : Config) (v : Vars) (a : Answers)
    (hstate : v.current_state = ST_SCAN) :
    (app_main_pass cfg v a).events.head? = some (Event.swb_scan_b AP_NB) := by
  have hb : ∃ tail, (loop_body cfg v a).events = Event.swb_scan_b AP_NB :: tail := by
    unfold loop_body
    dsimp only
    rw [if_pos hstate]
    generalize is_ota_ap_available cfg.OTA_UPDATE_AP_SSID
      (swb_scan_b AP_NB v.ap_records v.found_ap_nb a.wifi).ap_records
      (swb_scan_b AP_NB v.ap_records v.found_ap_nb a.wifi).found_ap_nb = m
    generalize swb_scan_b AP_NB v.ap_records v.found_ap_nb a.wifi = scan
    split_ifs
    · exact ⟨_, rfl⟩
    · exact ⟨_, rfl⟩
    · rcases m with _ | _ | _ <;> exact ⟨_, rfl⟩
    · exact ⟨_, rfl⟩
  obtain ⟨tail, ht⟩ := hb
  unfold app_main_pass
  cases hf : (loop_body cfg v a).flow <;> simp [ht]

/-- Every pass in `ST_TRY_OTA` starts with the call of `cwb_connect_b` for the
configured SSID, with the configured password and `IP_TIMEOUT_MS`. -/
theorem try_ota_pass_first_event (cfg : Config) (v : Vars) (a : Answers)
    (hstate : v.current_state = ST_TRY_OTA) :
    (app_main_pass cfg v a).events.head? =
      some (Event.cwb_connect_b cfg.OTA_UPDATE_AP_SSID cfg.OTA_UPDATE_AP_PASSWORD
        IP_TIMEOUT_MS) := by
  have hs : ¬ ST_TRY_OTA = ST_SCAN := by decide
  have hb : ∃ tail, (loop_body cfg v a).events =
      Event.cwb_connect_b cfg.OTA_UPDATE_AP_SSID cfg.OTA_UPDATE_AP_PASSWORD IP_TIMEOUT_MS ::
        tail := by
    unfold loop_body
    dsimp only
    rw [hstate, if_neg hs, if_pos rfl]
    generalize ota_update_b cfg.OTA_SERVER_NAME cfg.OTA_SERVER_PORT cfg.server_cert_pem
      cfg.OTA_SERVER_USERNAME cfg.OTA_SERVER_PASSWORD DEV_ID OTA_VERSION
      v.update_file_path a.http = o
    split_ifs <;> exact ⟨_, rfl⟩
  obtain ⟨tail, ht⟩ := hb
  unfold app_main_pass
  cases hf : (loop_body cfg v a).flow <;> simp [ht]

/-- A successful call of `swb_scan_b` leaves the records of the driver in the
array and a found count that is at most the limit `ap_nb`. -/
theorem swb_scan_b_success (ap_nb : Nat) (ap_records : List wifi_ap_record_t)
    (found_ap_nb : Nat) (w : WifiAnswers)
    (hs : (swb_scan_b ap_nb ap_records found_ap_nb w).status = SWB_SUCCESS) :
    (swb_scan_b ap_nb ap_records found_ap_nb w).ap_records = w.ap_records ∧
    (swb_scan_b ap_nb ap_records found_ap_nb w).found_ap_nb ≤ ap_nb := by
  have hne : SWB_ERROR ≠ SWB_SUCCESS := by decide
  unfold swb_scan_b at hs ⊢
  dsimp only at hs ⊢
  by_cases h1 : w.netif_created = false
  · rw [if_pos h1] at hs; exact absurd hs hne
  rw [if_neg h1] at hs ⊢
  by_cases h2 : w.init_rs ≠ ESP_OK
  · rw [if_pos h2] at hs; exact absurd hs hne
  rw [if_neg h2] at hs ⊢
  by_cases h3 : w.set_mode_rs ≠ ESP_OK
  · rw [if_pos h3] at hs; exact absurd hs hne
  rw [if_neg h3] at hs ⊢
  by_cases h4 : w.start_rs ≠ ESP_OK
  · rw [if_pos h4] at hs; exact absurd hs hne
  rw [if_neg h4] at hs ⊢
  by_cases h5 : w.scan_start_rs ≠ ESP_OK
  · rw [if_pos h5] at hs; exact absurd hs hne
  rw [if_neg h5] at hs ⊢
  by_cases h6 : w.get_ap_records_rs ≠ ESP_OK
  · rw [if_pos h6] at hs; exact absurd hs hne
  rw [if_neg h6] at hs ⊢
  by_cases h7 : w.get_ap_num_rs ≠ ESP_OK
  · rw [if_pos h7] at hs; exact absurd hs hne
  rw [if_neg h7] at hs ⊢
  by_cases h8 : w.stop_rs ≠ ESP_OK
  · rw [if_pos h8] at hs; exact absurd hs hne
  rw [if_neg h8] at hs ⊢
  by_cases h9 : w.ap_count % 65536 > ap_nb % 256 % 65536
  · rw [if_pos h9]
    exact ⟨rfl, Nat.mod_le _ _⟩
  · rw [if_neg h9]
    refine ⟨rfl, ?_⟩
    show w.ap_count % 65536 % 256 ≤ ap_nb
    omega

/-- A pass in `ST_SCAN` whose scan succeeds with at least one record, one of
which passes the membership test, ends by `break` in `ST_TRY_OTA`, without a
delay. -/
theorem scan_pass_with_ota_ap (cfg : Config) (v : Vars) (a : Answers)
    (hstate : v.current_state = ST_SCAN)
    (hscan : (swb_scan_b AP_NB v.ap_records v.found_ap_nb a.wifi).status = SWB_SUCCESS)
    (hfound : (swb_scan_b AP_NB v.ap_records v.found_ap_nb a.wifi).found_ap_nb ≠ 0)
    (hpresent : is_ota_ap_available cfg.OTA_UPDATE_AP_SSID
      (swb_scan_b AP_NB v.ap_records v.found_ap_nb a.wifi).ap_records
      (swb_scan_b AP_NB v.ap_records v.found_ap_nb a.wifi).found_ap_nb = some true) :
    app_main_pass cfg v a =
      ⟨[Event.swb_scan_b AP_NB], Flow.next_iteration,
        { v with
          ap_records := (swb_scan_b AP_NB v.ap_records v.found_ap_nb a.wifi).ap_records,
          found_ap_nb := (swb_scan_b AP_NB v.ap_records v.found_ap_nb a.wifi).found_ap_nb,
          current_state := ST_TRY_OTA }⟩ := by
  apply app_main_pass_of_break
  have hne : ¬ SWB_SUCCESS = SWB_ERROR := by decide
  unfold loop_body
  dsimp only
  rw [if_pos hstate, hpresent, hscan, if_neg hne, if_pos rfl, if_neg hfound]

/-- Each cycle of a list of "no update" cycles, started in `ST_SCAN`, ends in
`ST_SCAN`; the run goes on, never restarts, and holds one delay per cycle. -/
theorem no_update_cycles_run (cfg : Config) (cycles : List (Answers × Answers))
    (hcycles : ∀ c ∈ cycles, no_update_cycle cfg c.1 c.2) :
    ∀ v : Vars, v.current_state = ST_SCAN →
      (app_main_run cfg v (cycle_answers cycles)).flow = Flow.next_iteration ∧
      (app_main_run cfg v (cycle_answers cycles)).vars.current_state = ST_SCAN ∧
      Event.esp_restart ∉ (app_main_run cfg v (cycle_answers cycles)).events ∧
      (app_main_run cfg v (cycle_answers cycles)).events.count
        (Event.vTaskDelay_ms WAIT_BEFORE_NEXT_SCAN_MS) = cycles.length := by
  induction cycles with
  | nil =>
    intro v hv
    simp [cycle_answers, app_main_run, hv]
  | cons c rest ih =>
    intro v hv
    obtain ⟨hscan, hconn, hota, hdis⟩ := hcycles c (List.mem_cons_self c rest)
    obtain ⟨hs1, hs2, hs3⟩ := hscan v.ap_records v.found_ap_nb
    have hp1 := scan_pass_with_ota_ap cfg v c.1 hv hs1 hs2 hs3
    have hp2 := try_ota_pass_recoverable cfg (app_main_pass cfg v c.1).vars c.2
      (by rw [hp1]) hconn (Or.inl (hota _)) hdis
    have hrest := ih (fun d hd => hcycles d (List.mem_cons_of_mem c hd))
      (app_main_pass cfg (app_main_pass cfg v c.1).vars c.2).vars (by rw [hp2])
    obtain ⟨hr1, hr2, hr3, hr4⟩ := hrest
    have hrun : app_main_run cfg v (cycle_answers (c :: rest)) =
        ⟨(app_main_pass cfg v c.1).events ++
          ((app_main_pass cfg (app_main_pass cfg v c.1).vars c.2).events ++
            (app_main_run cfg (app_main_pass cfg (app_main_pass cfg v c.1).vars c.2).vars
              (cycle_answers rest)).events),
          (app_main_run cfg (app_main_pass cfg (app_main_pass cfg v c.1).vars c.2).vars
            (cycle_answers rest)).flow,
          (app_main_run cfg (app_main_pass cfg (app_main_pass cfg v c.1).vars c.2).vars
            (cycle_answers rest)).vars⟩ := by
      rw [cycle_answers, app_main_run_cons_next cfg v c.1 _ (by rw [hp1]),
        app_main_run_cons_next cfg _ c.2 _ (by rw [hp2])]
    rw [hrun]
    refine ⟨hr1, hr2, ?_, ?_⟩
    · show Event.esp_restart ∉ _ ++ (_ ++ _)
      rw [List.mem_append, List.mem_append]
      rintro (h | h | h)
      · rw [hp1] at h
        simp at h
      · rw [hp2] at h
        simp at h
      · exact hr3 h
    · show List.count _ (_ ++ (_ ++ _)) = _
      rw [List.count_append, List.count_append, hr4]
      generalize (app_main_pass cfg v c.1).vars = v1 at hp2 ⊢
      rw [hp1, hp2]
      simp [List.count_cons, List.length_cons]
      omega

/-- A pass in `ST_TRY_OTA` with a recoverable outcome of `ota_update_b` calls
`cwb_disconnect_b` right after `ota_update_b`, whatever it answers. -/
theorem try_ota_pass_recoverable_disconnects (cfg : Config) (v : Vars) (a : Answers)
    (hstate : v.current_state = ST_TRY_OTA) (hconn : a.connect_rs = CWB_OK)
    (hota : (app_ota_update cfg v a).status = OTA_NO_UPDATE ∨
      (app_ota_update cfg v a).status = OTA_CONN_ERR ∨
      (app_ota_update cfg v a).status = OTA_PARAM_ERR) :
    ∃ tail, (app_main_pass cfg v a).events =
      [Event.cwb_connect_b cfg.OTA_UPDATE_AP_SSID cfg.OTA_UPDATE_AP_PASSWORD IP_TIMEOUT_MS,
        Event.ota_update_b (app_ota_update cfg v a).calls, Event.cwb_disconnect_b] ++
        tail := by
  have hb : ∃ tail, (loop_body cfg v a).events =
      [Event.cwb_connect_b cfg.OTA_UPDATE_AP_SSID cfg.OTA_UPDATE_AP_PASSWORD IP_TIMEOUT_MS,
        Event.ota_update_b (app_ota_update cfg v a).calls, Event.cwb_disconnect_b] ++
        tail := by
    unfold app_ota_update at hota ⊢
    unfold loop_body
    dsimp only
    generalize ota_update_b cfg.OTA_SERVER_NAME cfg.OTA_SERVER_PORT cfg.server_cert_pem
      cfg.OTA_SERVER_USERNAME cfg.OTA_SERVER_PASSWORD DEV_ID OTA_VERSION
      v.update_file_path a.http = o at hota ⊢
    have hrec : o.status = OTA_CONN_ERR ∨ o.status = OTA_PARAM_ERR ∨
        o.status = OTA_NO_UPDATE := by
      rcases hota with e | e | e
      · exact Or.inr (Or.inr e)
      · exact Or.inl e
      · exact Or.inr (Or.inl e)
    have hsys : o.status ≠ OTA_SYS_ERR := by
      rcases hota with e | e | e <;> rw [e] <;> decide
    have hs : ¬ ST_TRY_OTA = ST_SCAN := by decide
    rw [hstate, if_neg hs, if_pos rfl, if_pos hconn, if_neg hsys, if_pos hrec, if_pos hrec]
    split_ifs
    · exact ⟨[Event.vTaskDelay_ms WAIT_BEFORE_NEXT_SCAN_MS], rfl⟩
    · exact ⟨[], rfl⟩
    · exact ⟨[], rfl⟩
  obtain ⟨tail, ht⟩ := hb
  unfold app_main_pass
  cases hf : (loop_body cfg v a).flow
  · exact ⟨tail, ht⟩
  · refine ⟨tail ++ exit_on_fatal_error, ?_⟩
    dsimp only
    rw [ht, List.append_assoc]
  · exact ⟨tail, ht⟩
  · exact ⟨tail, ht⟩

/-- A pass in `ST_TRY_OTA` with a recoverable outcome of `ota_update_b` and a
status `CWB_DIS_TIMEOUT` or `CWB_SYS_ERR` of `cwb_disconnect_b`. -/
theorem try_ota_pass_disconnect_failed (cfg : Config) (v : Vars) (a : Answers)
    (hstate : v.current_state = ST_TRY_OTA) (hconn : a.connect_rs = CWB_OK)
    (hota : (app_ota_update cfg v a).status = OTA_NO_UPDATE ∨
      (app_ota_update cfg v a).status = OTA_CONN_ERR ∨
      (app_ota_update cfg v a).status = OTA_PARAM_ERR)
    (hdis : a.disconnect_rs = CWB_DIS_TIMEOUT ∨ a.disconnect_rs = CWB_SYS_ERR) :
    app_main_pass cfg v a =
      ⟨[Event.cwb_connect_b cfg.OTA_UPDATE_AP_SSID cfg.OTA_UPDATE_AP_PASSWORD IP_TIMEOUT_MS,
        Event.ota_update_b (app_ota_update cfg v a).calls, Event.cwb_disconnect_b,
        Event.vTaskDelay_ms WAIT_BEFORE_RESTART_PERIOD_MS, Event.esp_restart],
        Flow.restarted,
        { v with update_file_path := (app_ota_update cfg v a).update_file_path }⟩ := by
  have hfatal := app_main_pass_of_fatal cfg v a
    [Event.cwb_connect_b cfg.OTA_UPDATE_AP_SSID cfg.OTA_UPDATE_AP_PASSWORD IP_TIMEOUT_MS,
      Event.ota_update_b (app_ota_update cfg v a).calls, Event.cwb_disconnect_b]
    { v with update_file_path := (app_ota_update cfg v a).update_file_path }
  apply hfatal
  unfold app_ota_update at hota ⊢
  unfold loop_body
  dsimp only
  generalize ota_update_b cfg.OTA_SERVER_NAME cfg.OTA_SERVER_PORT cfg.server_cert_pem
    cfg.OTA_SERVER_USERNAME cfg.OTA_SERVER_PASSWORD DEV_ID OTA_VERSION
    v.update_file_path a.http = o at hota ⊢
  have hrec : o.status = OTA_CONN_ERR ∨ o.status = OTA_PARAM_ERR ∨
      o.status = OTA_NO_UPDATE := by
    rcases hota with e | e | e
    · exact Or.inr (Or.inr e)
    · exact Or.inl e
    · exact Or.inr (Or.inl e)
  have hsys : o.status ≠ OTA_SYS_ERR := by
    rcases hota with e | e | e <;> rw [e] <;> decide
  have hs : ¬ ST_TRY_OTA = ST_SCAN := by decide
  have hclean : ¬ (a.disconnect_rs = CWB_OK ∨ a.disconnect_rs = CWB_ALREADY_DIS) := by
    rcases hdis with e | e <;> rw [e] <;> decide
  rw [hstate, if_neg hs, if_pos rfl, if_pos hconn, if_neg hsys, if_pos hrec, if_pos hrec,
    if_neg hclean, if_pos hdis]
  rfl

/-- A pass in `ST_TRY_OTA` in which `ota_update_b` returns `OTA_UPDATED`. -/
theorem try_ota_pass_updated (cfg : Config) (v : Vars) (a : Answers)
    (hstate : v.current_state = ST_TRY_OTA) (hconn : a.connect_rs = CWB_OK)
    (hota : (app_ota_update cfg v a).status = OTA_UPDATED) :
    app_main_pass cfg v a =
      ⟨[Event.cwb_connect_b cfg.OTA_UPDATE_AP_SSID cfg.OTA_UPDATE_AP_PASSWORD IP_TIMEOUT_MS,
        Event.ota_update_b (app_ota_update cfg v a).calls, Event.cwb_disconnect_b,
        Event.esp_restart], Flow.restarted,
        { v with update_file_path := (app_ota_update cfg v a).update_file_path }⟩ := by
  apply app_main_pass_of_restart
  unfold app_ota_update at hota ⊢
  unfold loop_body
  dsimp only
  generalize ota_update_b cfg.OTA_SERVER_NAME cfg.OTA_SERVER_PORT cfg.server_cert_pem
    cfg.OTA_SERVER_USERNAME cfg.OTA_SERVER_PASSWORD DEV_ID OTA_VERSION
    v.update_file_path a.http = o at hota ⊢
  have hrec : ¬ (o.status = OTA_CONN_ERR ∨ o.status = OTA_PARAM_ERR ∨
      o.status = OTA_NO_UPDATE) := by
    rw [hota]; decide
  have hsys : o.status ≠ OTA_SYS_ERR := by
    rw [hota]; decide
  have hs : ¬ ST_TRY_OTA = ST_SCAN := by decide
  rw [hstate, if_neg hs, if_pos rfl, if_pos hconn, if_neg hsys, if_neg hrec, if_pos hota]
  rfl

/-- A pass in `ST_TRY_OTA` whose join fails with `CWB_IP_TIMEOUT`, `CWB_DIS` or
`CWB_CONN_ERR`. -/
theorem try_ota_pass_join_transient (cfg : Config) (v : Vars) (a : Answers)
    (hstate : v.current_state = ST_TRY_OTA)
    (hconn : a.connect_rs = CWB_IP_TIMEOUT ∨ a.connect_rs = CWB_DIS ∨
      a.connect_rs = CWB_CONN_ERR) :
    app_main_pass cfg v a =
      ⟨[Event.cwb_connect_b cfg.OTA_UPDATE_AP_SSID cfg.OTA_UPDATE_AP_PASSWORD IP_TIMEOUT_MS,
        Event.vTaskDelay_ms WAIT_BEFORE_NEXT_SCAN_MS], Flow.next_iteration,
        { v with current_state := ST_SCAN }⟩ := by
  apply app_main_pass_of_break
  have hs : ¬ ST_TRY_OTA = ST_SCAN := by decide
  have hnok : ¬ a.connect_rs = CWB_OK := by
    rcases hconn with e | e | e <;> rw [e] <;> decide
  unfold loop_body
  dsimp only
  rw [hstate, if_neg hs, if_pos rfl, if_neg hnok, if_pos hconn]
  rfl

/-- A pass in `ST_TRY_OTA` whose join returns `CWB_ALREADY_CON`,
`CWB_PARAM_ERR` or `CWB_SYS_ERR`. -/
theorem try_ota_pass_join_fatal (cfg : Config) (v : Vars) (a : Answers)
    (hstate : v.current_state = ST_TRY_OTA)
    (hconn : a.connect_rs = CWB_ALREADY_CON ∨ a.connect_rs = CWB_PARAM_ERR ∨
      a.connect_rs = CWB_SYS_ERR) :
    app_main_pass cfg v a =
      ⟨[Event.cwb_connect_b cfg.OTA_UPDATE_AP_SSID cfg.OTA_UPDATE_AP_PASSWORD IP_TIMEOUT_MS,
        Event.vTaskDelay_ms WAIT_BEFORE_RESTART_PERIOD_MS, Event.esp_restart],
        Flow.restarted, v⟩ := by
  have hfatal := app_main_pass_of_fatal cfg v a
    [Event.cwb_connect_b cfg.OTA_UPDATE_AP_SSID cfg.OTA_UPDATE_AP_PASSWORD IP_TIMEOUT_MS] v
  apply hfatal
  have hs : ¬ ST_TRY_OTA = ST_SCAN := by decide
  have hnok : ¬ a.connect_rs = CWB_OK := by
    rcases hconn with e | e | e <;> rw [e] <;> decide
  have hntr : ¬ (a.connect_rs = CWB_IP_TIMEOUT ∨ a.connect_rs = CWB_DIS ∨
      a.connect_rs = CWB_CONN_ERR) := by
    rcases hconn with e | e | e <;> rw [e] <;> decide
  unfold loop_body
  dsimp only
  rw [hstate, if_neg hs, if_pos rfl, if_neg hnok, if_neg hntr, if_pos hconn]

/-- A pass in `ST_SCAN` whose scan succeeds with no record. -/
theorem scan_pass_nothing_found (cfg : Config) (v : Vars) (a : Answers)
    (hstate : v.current_state = ST_SCAN)
    (hscan : (swb_scan_b AP_NB v.ap_records v.found_ap_nb a.wifi).status = SWB_SUCCESS)
    (hfound : (swb_scan_b AP_NB v.ap_records v.found_ap_nb a.wifi).found_ap_nb = 0) :
    app_main_pass cfg v a =
      ⟨[Event.swb_scan_b AP_NB, Event.vTaskDelay_ms WAIT_BEFORE_NEXT_SCAN_MS],
        Flow.next_iteration,
        { v with
          ap_records := (swb_scan_b AP_NB v.ap_records v.found_ap_nb a.wifi).ap_records,
          found_ap_nb := (swb_scan_b AP_NB v.ap_records v.found_ap_nb a.wifi).found_ap_nb }⟩ := by
  apply app_main_pass_of_break
  have hne : ¬ SWB_SUCCESS = SWB_ERROR := by decide
  unfold loop_body
  dsimp only
  rw [if_pos hstate, if_pos hfound, hscan, if_neg hne, if_pos rfl]
  rfl

/-! ## The orchestrator: transitions -/

/-- C14: when the join succeeds and `ota_update_b` returns `OTA_NO_UPDATE`,
`OTA_CONN_ERR` or `OTA_PARAM_ERR`, the pass calls `cwb_disconnect_b`; if that
returns `CWB_OK` or `CWB_ALREADY_DIS`, the pass ends in `ST_SCAN` after exactly
one delay of `WAIT_BEFORE_NEXT_SCAN_MS`. Consequently a run of any number of
"no update" cycles started in `ST_SCAN` ends in `ST_SCAN` with the loop going
on, holds no `esp_restart`, and holds one delay per cycle. -/
theorem recoverable_outcome_back_to_scan (cfg : Config) (v : Vars) (a : Answers)
    (cycles : List (Answers × Answers)) :
    (v.current_state = ST_TRY_OTA → a.connect_rs = CWB_OK →
      ((app_ota_update cfg v a).status = OTA_NO_UPDATE ∨
        (app_ota_update cfg v a).status = OTA_CONN_ERR ∨
        (app_ota_update cfg v a).status = OTA_PARAM_ERR) →
      Event.cwb_disconnect_b ∈ (app_main_pass cfg v a).events ∧
      (a.disconnect_rs = CWB_OK ∨ a.disconnect_rs = CWB_ALREADY_DIS →
        (app_main_pass cfg v a).events =
          [Event.cwb_connect_b cfg.OTA_UPDATE_AP_SSID cfg.OTA_UPDATE_AP_PASSWORD
            IP_TIMEOUT_MS,
           Event.ota_update_b (app_ota_update cfg v a).calls, Event.cwb_disconnect_b,
           Event.vTaskDelay_ms WAIT_BEFORE_NEXT_SCAN_MS] ∧
        (app_main_pass cfg v a).flow = Flow.next_iteration ∧
        (app_main_pass cfg v a).vars.current_state = ST_SCAN)) ∧
    (v.current_state = ST_SCAN → (∀ c ∈ cycles, no_update_cycle cfg c.1 c.2) →
      (app_main_run cfg v (cycle_answers cycles)).flow = Flow.next_iteration ∧
      (app_main_run cfg v (cycle_answers cycles)).vars.current_state = ST_SCAN ∧
      Event.esp_restart ∉ (app_main_run cfg v (cycle_answers cycles)).events ∧
      (app_main_run cfg v (cycle_answers cycles)).events.count
        (Event.vTaskDelay_ms WAIT_BEFORE_NEXT_SCAN_MS) = cycles.length) := by
  constructor
  · intro hstate hconn hota
    constructor
    · obtain ⟨tail, ht⟩ := try_ota_pass_recoverable_disconnects cfg v a hstate hconn hota
      rw [ht]
      simp
    · intro hdis
      rw [try_ota_pass_recoverable cfg v a hstate hconn hota hdis]
      exact ⟨rfl, rfl, rfl⟩
  · intro hstate hcycles
    exact no_update_cycles_run cfg cycles hcycles v hstate

/-- The answers of scenario C make a "no update" cycle. -/
theorem scenario_c_no_update_cycle :
    no_update_cycle scenario_cfg scenario_c_answers scenario_c_answers := by
  refine ⟨?_, rfl, ?_, Or.inl rfl⟩
  · intro ap_records found_ap_nb
    have e : swb_scan_b AP_NB ap_records found_ap_nb scenario_c_answers.wifi =
        ⟨SWB_SUCCESS, scenario_c_answers.wifi.ap_records, 1⟩ := rfl
    rw [e]
    decide
  · intro update_file_path
    have e : (ota_update_b scenario_cfg.OTA_SERVER_NAME scenario_cfg.OTA_SERVER_PORT
        scenario_cfg.server_cert_pem scenario_cfg.OTA_SERVER_USERNAME
        scenario_cfg.OTA_SERVER_PASSWORD DEV_ID OTA_VERSION update_file_path
        scenario_c_answers.http).status = OTA_NO_UPDATE := rfl
    exact e

/-- C14 at scenario C: a pass in `ST_TRY_OTA` with the answer 204 and a clean
disconnection, and a run of two such cycles after a boot. -/
theorem recoverable_outcome_back_to_scan_witness :
    ((app_main_pass scenario_cfg try_ota_vars scenario_c_answers).flow =
        Flow.next_iteration ∧
      (app_main_pass scenario_cfg try_ota_vars scenario_c_answers).vars.current_state =
        ST_SCAN) ∧
    ((app_main_run scenario_cfg boot_vars
        (cycle_answers [(scenario_c_answers, scenario_c_answers),
          (scenario_c_answers, scenario_c_answers)])).vars.current_state = ST_SCAN ∧
      Event.esp_restart ∉ (app_main_run scenario_cfg boot_vars
        (cycle_answers [(scenario_c_answers, scenario_c_answers),
          (scenario_c_answers, scenario_c_answers)])).events) :=
  ⟨(((recoverable_outcome_back_to_scan scenario_cfg try_ota_vars scenario_c_answers
        []).1 rfl rfl (Or.inl (by decide))).2 (Or.inl rfl)).2,
   ⟨((recoverable_outcome_back_to_scan scenario_cfg boot_vars scenario_c_answers
        [(scenario_c_answers, scenario_c_answers),
          (scenario_c_answers, scenario_c_answers)]).2 rfl
        (by
          intro c hc
          simp only [List.mem_cons, List.mem_singleton, List.not_mem_nil, or_false,
            or_self] at hc
          rw [hc]
          exact scenario_c_no_update_cycle)).2.1,
    ((recoverable_outcome_back_to_scan scenario_cfg boot_vars scenario_c_answers
        [(scenario_c_answers, scenario_c_answers),
          (scenario_c_answers, scenario_c_answers)]).2 rfl
        (by
          intro c hc
          simp only [List.mem_cons, List.mem_singleton, List.not_mem_nil, or_false,
            or_self] at hc
          rw [hc]
          exact scenario_c_no_update_cycle)).2.2.1⟩⟩

/-- C15: when `ota_update_b` returns `OTA_UPDATED`, the pass calls
`cwb_disconnect_b` once and then `esp_restart`, with no delay; the status of
`cwb_disconnect_b` has no influence on the pass, and no further pass is
made. -/
theorem updated_outcome_restarts (cfg : Config) (v : Vars) (a : Answers)
    (hstate : v.current_state = ST_TRY_OTA) (hconn : a.connect_rs = CWB_OK)
    (hota : (app_ota_update cfg v a).status = OTA_UPDATED) :
    (app_main_pass cfg v a).events =
      [Event.cwb_connect_b cfg.OTA_UPDATE_AP_SSID cfg.OTA_UPDATE_AP_PASSWORD IP_TIMEOUT_MS,
       Event.ota_update_b (app_ota_update cfg v a).calls, Event.cwb_disconnect_b,
       Event.esp_restart] ∧
    (app_main_pass cfg v a).flow = Flow.restarted ∧
    (∀ d, app_main_pass cfg v { a with disconnect_rs := d } = app_main_pass cfg v a) ∧
    (∀ rest, app_main_run cfg v (a :: rest) = app_main_pass cfg v a) := by
  have hpass := try_ota_pass_updated cfg v a hstate hconn hota
  refine ⟨by rw [hpass], by rw [hpass], ?_, ?_⟩
  · intro d
    rw [hpass, try_ota_pass_updated cfg v { a with disconnect_rs := d } hstate hconn hota]
    rfl
  · intro rest
    exact app_main_run_cons_restarted cfg v a rest (by rw [hpass])

/-- C15 at scenario D: the server answers 200 with the file name
"fw-1.2.bin", the download succeeds, and `cwb_disconnect_b` fails. -/
theorem updated_outcome_restarts_witness :
    (app_main_pass scenario_cfg try_ota_vars
      ⟨scan_answers [], CWB_OK,
        http_answers 200 ['f', 'w', '-', '1', '.', '2', '.', 'b', 'i', 'n'] ESP_OK,
        CWB_SYS_ERR⟩).events.drop 2 = [Event.cwb_disconnect_b, Event.esp_restart] ∧
    (app_main_pass scenario_cfg try_ota_vars
      ⟨scan_answers [], CWB_OK,
        http_answers 200 ['f', 'w', '-', '1', '.', '2', '.', 'b', 'i', 'n'] ESP_OK,
        CWB_SYS_ERR⟩).flow = Flow.restarted := by
  have h := updated_outcome_restarts scenario_cfg try_ota_vars
    ⟨scan_answers [], CWB_OK,
      http_answers 200 ['f', 'w', '-', '1', '.', '2', '.', 'b', 'i', 'n'] ESP_OK,
      CWB_SYS_ERR⟩ rfl rfl (by decide)
  exact ⟨by rw [h.1]; rfl, h.2.1⟩

/-- C16: when the join fails with `CWB_IP_TIMEOUT`, `CWB_DIS` or
`CWB_CONN_ERR`, the pass makes the join and one delay of
`WAIT_BEFORE_NEXT_SCAN_MS` and nothing else (no `cwb_disconnect_b`, no
`ota_update_b`, no restart), and the loop goes on in `ST_SCAN`, the other
variables being unchanged. -/
theorem join_transient_failure_back_to_scan (cfg : Config) (v : Vars) (a : Answers)
    (hstate : v.current_state = ST_TRY_OTA)
    (hconn : a.connect_rs = CWB_IP_TIMEOUT ∨ a.connect_rs = CWB_DIS ∨
      a.connect_rs = CWB_CONN_ERR) :
    (app_main_pass cfg v a).events =
      [Event.cwb_connect_b cfg.OTA_UPDATE_AP_SSID cfg.OTA_UPDATE_AP_PASSWORD IP_TIMEOUT_MS,
       Event.vTaskDelay_ms WAIT_BEFORE_NEXT_SCAN_MS] ∧
    (app_main_pass cfg v a).flow = Flow.next_iteration ∧
    (app_main_pass cfg v a).vars = { v with current_state := ST_SCAN } := by
  rw [try_ota_pass_join_transient cfg v a hstate hconn]
  exact ⟨rfl, rfl, rfl⟩

/-- C16 at scenario E: the join times out waiting for an address. -/
theorem join_transient_failure_back_to_scan_witness :
    (app_main_pass scenario_cfg try_ota_vars
      ⟨scan_answers [], CWB_IP_TIMEOUT, http_answers 204 [] ESP_OK, CWB_OK⟩).events =
      [Event.cwb_connect_b scenario_cfg.OTA_UPDATE_AP_SSID
        scenario_cfg.OTA_UPDATE_AP_PASSWORD IP_TIMEOUT_MS,
       Event.vTaskDelay_ms WAIT_BEFORE_NEXT_SCAN_MS] ∧
    (app_main_pass scenario_cfg try_ota_vars
      ⟨scan_answers [], CWB_IP_TIMEOUT, http_answers 204 [] ESP_OK, CWB_OK⟩).flow =
      Flow.next_iteration ∧
    (app_main_pass scenario_cfg try_ota_vars
      ⟨scan_answers [], CWB_IP_TIMEOUT, http_answers 204 [] ESP_OK, CWB_OK⟩).vars =
      { try_ota_vars with current_state := ST_SCAN } :=
  join_transient_failure_back_to_scan scenario_cfg try_ota_vars
    ⟨scan_answers [], CWB_IP_TIMEOUT, http_answers 204 [] ESP_OK, CWB_OK⟩ rfl (Or.inl rfl)

/-- C17: when the join returns `CWB_ALREADY_CON`, `CWB_PARAM_ERR` or
`CWB_SYS_ERR`, the pass continues at `exit_on_fatal_error`: after the join come
the delay of `WAIT_BEFORE_RESTART_PERIOD_MS` and `esp_restart`, and no further
pass is made. -/
theorem join_fatal_failure_restarts (cfg : Config) (v : Vars) (a : Answers)
    (hstate : v.current_state = ST_TRY_OTA)
    (hconn : a.connect_rs = CWB_ALREADY_CON ∨ a.connect_rs = CWB_PARAM_ERR ∨
      a.connect_rs = CWB_SYS_ERR) :
    (app_main_pass cfg v a).events =
      [Event.cwb_connect_b cfg.OTA_UPDATE_AP_SSID cfg.OTA_UPDATE_AP_PASSWORD IP_TIMEOUT_MS,
       Event.vTaskDelay_ms WAIT_BEFORE_RESTART_PERIOD_MS, Event.esp_restart] ∧
    (app_main_pass cfg v a).flow = Flow.restarted ∧
    (∀ rest, app_main_run cfg v (a :: rest) = app_main_pass cfg v a) := by
  have hpass := try_ota_pass_join_fatal cfg v a hstate hconn
  refine ⟨by rw [hpass], by rw [hpass], ?_⟩
  intro rest
  exact app_main_run_cons_restarted cfg v a rest (by rw [hpass])

/-- C17 at a join that returns `CWB_ALREADY_CON`. -/
theorem join_fatal_failure_restarts_witness :
    (app_main_pass scenario_cfg try_ota_vars
      ⟨scan_answers [], CWB_ALREADY_CON, http_answers 204 [] ESP_OK, CWB_OK⟩).events =
      [Event.cwb_connect_b scenario_cfg.OTA_UPDATE_AP_SSID
        scenario_cfg.OTA_UPDATE_AP_PASSWORD IP_TIMEOUT_MS,
       Event.vTaskDelay_ms WAIT_BEFORE_RESTART_PERIOD_MS, Event.esp_restart] ∧
    (app_main_pass scenario_cfg try_ota_vars
      ⟨scan_answers [], CWB_ALREADY_CON, http_answers 204 [] ESP_OK, CWB_OK⟩).flow =
      Flow.restarted :=
  ⟨(join_fatal_failure_restarts scenario_cfg try_ota_vars
      ⟨scan_answers [], CWB_ALREADY_CON, http_answers 204 [] ESP_OK, CWB_OK⟩ rfl
      (Or.inl rfl)).1,
   (join_fatal_failure_restarts scenario_cfg try_ota_vars
      ⟨scan_answers [], CWB_ALREADY_CON, http_answers 204 [] ESP_OK, CWB_OK⟩ rfl
      (Or.inl rfl)).2.1⟩

/-- C18: after an outcome `OTA_NO_UPDATE`, `OTA_CONN_ERR` or `OTA_PARAM_ERR`,
when `cwb_disconnect_b` returns `CWB_DIS_TIMEOUT` or `CWB_SYS_ERR` the pass
continues at `exit_on_fatal_error`: after the disconnection come the delay of
`WAIT_BEFORE_RESTART_PERIOD_MS` and `esp_restart`, and no further pass is
made. -/
theorem disconnect_failure_restarts (cfg : Config) (v : Vars) (a : Answers)
    (hstate : v.current_state = ST_TRY_OTA) (hconn : a.connect_rs = CWB_OK)
    (hota : (app_ota_update cfg v a).status = OTA_NO_UPDATE ∨
      (app_ota_update cfg v a).status = OTA_CONN_ERR ∨
      (app_ota_update cfg v a).status = OTA_PARAM_ERR)
    (hdis : a.disconnect_rs = CWB_DIS_TIMEOUT ∨ a.disconnect_rs = CWB_SYS_ERR) :
    (app_main_pass cfg v a).events =
      [Event.cwb_connect_b cfg.OTA_UPDATE_AP_SSID cfg.OTA_UPDATE_AP_PASSWORD IP_TIMEOUT_MS,
       Event.ota_update_b (app_ota_update cfg v a).calls, Event.cwb_disconnect_b,
       Event.vTaskDelay_ms WAIT_BEFORE_RESTART_PERIOD_MS, Event.esp_restart] ∧
    (app_main_pass cfg v a).flow = Flow.restarted ∧
    (∀ rest, app_main_run cfg v (a :: rest) = app_main_pass cfg v a) := by
  have hpass := try_ota_pass_disconnect_failed cfg v a hstate hconn hota hdis
  refine ⟨by rw [hpass], by rw [hpass], ?_⟩
  intro rest
  exact app_main_run_cons_restarted cfg v a rest (by rw [hpass])

/-- C18 at the answer 204 followed by a disconnection that times out. -/
theorem disconnect_failure_restarts_witness :
    (app_main_pass scenario_cfg try_ota_vars
      ⟨scan_answers [], CWB_OK, http_answers 204 [] ESP_OK, CWB_DIS_TIMEOUT⟩).events.drop 2 =
      [Event.cwb_disconnect_b, Event.vTaskDelay_ms WAIT_BEFORE_RESTART_PERIOD_MS,
        Event.esp_restart] ∧
    (app_main_pass scenario_cfg try_ota_vars
      ⟨scan_answers [], CWB_OK, http_answers 204 [] ESP_OK, CWB_DIS_TIMEOUT⟩).flow =
      Flow.restarted := by
  have h := disconnect_failure_restarts scenario_cfg try_ota_vars
    ⟨scan_answers [], CWB_OK, http_answers 204 [] ESP_OK, CWB_DIS_TIMEOUT⟩ rfl rfl
    (Or.inl (by decide)) (Or.inl rfl)
  exact ⟨by rw [h.1]; rfl, h.2.1⟩

/-- C19: when the scan succeeds with zero records, the pass makes the scan and
exactly one delay of `WAIT_BEFORE_NEXT_SCAN_MS` and nothing else (no join), the
loop goes on in `ST_SCAN`, and the next pass starts with a call of
`swb_scan_b`. -/
theorem empty_scan_waits_and_rescans (cfg : Config) (v : Vars) (a : Answers)
    (hstate : v.current_state = ST_SCAN)
    (hscan : (swb_scan_b AP_NB v.ap_records v.found_ap_nb a.wifi).status = SWB_SUCCESS)
    (hfound : (swb_scan_b AP_NB v.ap_records v.found_ap_nb a.wifi).found_ap_nb = 0) :
    (app_main_pass cfg v a).events =
      [Event.swb_scan_b AP_NB, Event.vTaskDelay_ms WAIT_BEFORE_NEXT_SCAN_MS] ∧
    (app_main_pass cfg v a).flow = Flow.next_iteration ∧
    (app_main_pass cfg v a).vars.current_state = ST_SCAN ∧
    (∀ next, (app_main_pass cfg (app_main_pass cfg v a).vars next).events.head? =
      some (Event.swb_scan_b AP_NB)) := by
  have hpass := scan_pass_nothing_found cfg v a hstate hscan hfound
  have hnext : (app_main_pass cfg v a).vars.current_state = ST_SCAN := by
    rw [hpass]; exact hstate
  refine ⟨by rw [hpass], by rw [hpass], hnext, ?_⟩
  intro next
  exact scan_pass_first_event cfg _ next hnext

/-- C19 at scenario A: after a boot the scan returns no access point. -/
theorem empty_scan_waits_and_rescans_witness :
    (app_main_pass scenario_cfg boot_vars
      ⟨scan_answers [], CWB_OK, http_answers 204 [] ESP_OK, CWB_OK⟩).events =
      [Event.swb_scan_b AP_NB, Event.vTaskDelay_ms WAIT_BEFORE_NEXT_SCAN_MS] ∧
    (app_main_pass scenario_cfg boot_vars
      ⟨scan_answers [], CWB_OK, http_answers 204 [] ESP_OK, CWB_OK⟩).flow =
      Flow.next_iteration :=
  ⟨(empty_scan_waits_and_rescans scenario_cfg boot_vars
      ⟨scan_answers [], CWB_OK, http_answers 204 [] ESP_OK, CWB_OK⟩ rfl rfl rfl).1,
   (empty_scan_waits_and_rescans scenario_cfg boot_vars
      ⟨scan_answers [], CWB_OK, http_answers 204 [] ESP_OK, CWB_OK⟩ rfl rfl rfl).2.1⟩

/-- C20: when the scan succeeds and some record among the `found_ap_nb`
returned ones holds the configured SSID, the pass ends by `break` in
`ST_TRY_OTA` without a delay, and the next pass starts with the call of
`cwb_connect_b` for the configured SSID, with the configured password and
`IP_TIMEOUT_MS`. The array has `AP_NB` records with `ssid` fields of 33 bytes,
and the configured SSID is shorter than 256 bytes. -/
theorem ota_ap_found_then_join (cfg : Config) (v : Vars) (a : Answers)
    (hstate : v.current_state = ST_SCAN)
    (hscan : (swb_scan_b AP_NB v.ap_records v.found_ap_nb a.wifi).status = SWB_SUCCESS)
    (hsize : a.wifi.ap_records.length = AP_NB)
    (hfield : ∀ r ∈ a.wifi.ap_records, r.ssid.length = 33)
    (hssid : strlen cfg.OTA_UPDATE_AP_SSID < 256)
    (hpresent : ∃ i r,
      i < (swb_scan_b AP_NB v.ap_records v.found_ap_nb a.wifi).found_ap_nb ∧
      (swb_scan_b AP_NB v.ap_records v.found_ap_nb a.wifi).ap_records[i]? = some r ∧
      c_str r.ssid = c_str cfg.OTA_UPDATE_AP_SSID) :
    (app_main_pass cfg v a).events = [Event.swb_scan_b AP_NB] ∧
    (app_main_pass cfg v a).flow = Flow.next_iteration ∧
    (app_main_pass cfg v a).vars.current_state = ST_TRY_OTA ∧
    (∀ next, (app_main_pass cfg (app_main_pass cfg v a).vars next).events.head? =
      some (Event.cwb_connect_b cfg.OTA_UPDATE_AP_SSID cfg.OTA_UPDATE_AP_PASSWORD
        IP_TIMEOUT_MS)) := by
  obtain ⟨hrecords, hle⟩ := swb_scan_b_success AP_NB v.ap_records v.found_ap_nb a.wifi hscan
  obtain ⟨i, r, hi, hr, htext⟩ := hpresent
  have hfound : (swb_scan_b AP_NB v.ap_records v.found_ap_nb a.wifi).found_ap_nb ≠ 0 := by
    omega
  have htest : is_ota_ap_available cfg.OTA_UPDATE_AP_SSID
      (swb_scan_b AP_NB v.ap_records v.found_ap_nb a.wifi).ap_records
      (swb_scan_b AP_NB v.ap_records v.found_ap_nb a.wifi).found_ap_nb = some true := by
    obtain ⟨b, hb, hiff⟩ := is_ota_ap_available_loop_spec cfg.OTA_UPDATE_AP_SSID
      (swb_scan_b AP_NB v.ap_records v.found_ap_nb a.wifi).ap_records
      (by rw [hrecords]; exact hfield) hssid
      (swb_scan_b AP_NB v.ap_records v.found_ap_nb a.wifi).found_ap_nb 0
      (by rw [hrecords, hsize]; omega)
    have hbt : b = true := hiff.mpr ⟨i, r, Nat.zero_le i, by omega, hr, htext⟩
    unfold is_ota_ap_available
    rw [hb, hbt]
  have hpass := scan_pass_with_ota_ap cfg v a hstate hscan hfound htest
  have hnext : (app_main_pass cfg v a).vars.current_state = ST_TRY_OTA := by
    rw [hpass]
  refine ⟨by rw [hpass], by rw [hpass], hnext, ?_⟩
  intro next
  exact try_ota_pass_first_event cfg _ next hnext

/-- C20 at a scan after a boot that returns the access points "Home" and
"Maint-AP". -/
theorem ota_ap_found_then_join_witness :
    (app_main_pass scenario_cfg boot_vars
      ⟨scan_answers [['H', 'o', 'm', 'e'], ['M', 'a', 'i', 'n', 't', '-', 'A', 'P']],
        CWB_OK, http_answers 204 [] ESP_OK, CWB_OK⟩).events = [Event.swb_scan_b AP_NB] ∧
    (app_main_pass scenario_cfg boot_vars
      ⟨scan_answers [['H', 'o', 'm', 'e'], ['M', 'a', 'i', 'n', 't', '-', 'A', 'P']],
        CWB_OK, http_answers 204 [] ESP_OK, CWB_OK⟩).vars.current_state = ST_TRY_OTA :=
  ⟨(ota_ap_found_then_join scenario_cfg boot_vars
      ⟨scan_answers [['H', 'o', 'm', 'e'], ['M', 'a', 'i', 'n', 't', '-', 'A', 'P']],
        CWB_OK, http_answers 204 [] ESP_OK, CWB_OK⟩ rfl rfl (by decide) (by decide)
      (by decide)
      ⟨1, record_of_ssid ['M', 'a', 'i', 'n', 't', '-', 'A', 'P'], by decide, by decide,
        by decide⟩).1,
   (ota_ap_found_then_join scenario_cfg boot_vars
      ⟨scan_answers [['H', 'o', 'm', 'e'], ['M', 'a', 'i', 'n', 't', '-', 'A', 'P']],
        CWB_OK, http_answers 204 [] ESP_OK, CWB_OK⟩ rfl rfl (by decide) (by decide)
      (by decide)
      ⟨1, record_of_ssid ['M', 'a', 'i', 'n', 't', '-', 'A', 'P'], by decide, by decide,
        by decide⟩).2.2.1⟩

/-! ## The scanner: the found count -/

/-- The found count that a successful call of `swb_scan_b` writes. -/
theorem swb_scan_b_success_found (ap_nb : Nat) (ap_records : List wifi_ap_record_t)
    (found_ap_nb : Nat) (w : WifiAnswers)
    (hs : (swb_scan_b ap_nb ap_records found_ap_nb w).status = SWB_SUCCESS) :
    (swb_scan_b ap_nb ap_records found_ap_nb w).found_ap_nb =
      if w.ap_count % 65536 > ap_nb % 256 % 65536 then ap_nb % 256
      else w.ap_count % 65536 % 256 := by
  have hne : SWB_ERROR ≠ SWB_SUCCESS := by decide
  unfold swb_scan_b at hs ⊢
  dsimp only at hs ⊢
  by_cases h1 : w.netif_created = false
  · rw [if_pos h1] at hs; exact absurd hs hne
  rw [if_neg h1] at hs ⊢
  by_cases h2 : w.init_rs ≠ ESP_OK
  · rw [if_pos h2] at hs; exact absurd hs hne
  rw [if_neg h2] at hs ⊢
  by_cases h3 : w.set_mode_rs ≠ ESP_OK
  · rw [if_pos h3] at hs; exact absurd hs hne
  rw [if_neg h3] at hs ⊢
  by_cases h4 : w.start_rs ≠ ESP_OK
  · rw [if_pos h4] at hs; exact absurd hs hne
  rw [if_neg h4] at hs ⊢
  by_cases h5 : w.scan_start_rs ≠ ESP_OK
  · rw [if_pos h5] at hs; exact absurd hs hne
  rw [if_neg h5] at hs ⊢
  by_cases h6 : w.get_ap_records_rs ≠ ESP_OK
  · rw [if_pos h6] at hs; exact absurd hs hne
  rw [if_neg h6] at hs ⊢
  by_cases h7 : w.get_ap_num_rs ≠ ESP_OK
  · rw [if_pos h7] at hs; exact absurd hs hne
  rw [if_neg h7] at hs ⊢
  by_cases h8 : w.stop_rs ≠ ESP_OK
  · rw [if_pos h8] at hs; exact absurd hs hne
  rw [if_neg h8] at hs ⊢
  by_cases h9 : w.ap_count % 65536 > ap_nb % 256 % 65536
  · rw [if_pos h9, if_pos h9]
  · rw [if_neg h9, if_neg h9]

/-- C23: for every limit `ap_nb` (a `uint8_t`) and every count `ap_count` (a
`uint16_t`) written by `esp_wifi_scan_get_ap_num`, a successful call of
`swb_scan_b` writes `found_ap_nb = min ap_count ap_nb`: the count is at most
the limit, and the conversion to `uint8_t` does not change it. -/
theorem swb_scan_b_found_is_min (ap_nb : Nat) (ap_records : List wifi_ap_record_t)
    (found_ap_nb : Nat) (w : WifiAnswers)
    (hnb : ap_nb < 256) (hcount : w.ap_count < 65536)
    (hs : (swb_scan_b ap_nb ap_records found_ap_nb w).status = SWB_SUCCESS) :
    (swb_scan_b ap_nb ap_records found_ap_nb w).found_ap_nb = min w.ap_count ap_nb ∧
    (swb_scan_b ap_nb ap_records found_ap_nb w).found_ap_nb ≤ ap_nb ∧
    min w.ap_count ap_nb % 256 = min w.ap_count ap_nb := by
  rw [swb_scan_b_success_found ap_nb ap_records found_ap_nb w hs]
  have e1 : ap_nb % 256 % 65536 = ap_nb := by omega
  have e2 : w.ap_count % 65536 = w.ap_count := by omega
  have e3 : ap_nb % 256 = ap_nb := by omega
  rw [e1, e2, e3]
  by_cases h : w.ap_count > ap_nb
  · rw [if_pos h]
    have hm : min w.ap_count ap_nb = ap_nb := Nat.min_eq_right (Nat.le_of_lt h)
    rw [hm]
    exact ⟨rfl, Nat.le_refl _, e3⟩
  · rw [if_neg h]
    have hle : w.ap_count ≤ ap_nb := Nat.le_of_not_gt h
    have hm : min w.ap_count ap_nb = w.ap_count := Nat.min_eq_left hle
    have e4 : w.ap_count % 256 = w.ap_count := by omega
    rw [hm, e4]
    exact ⟨rfl, hle, rfl⟩

/-- C23 at the limit `AP_NB` with 3 and with 300 access points counted by the
driver. -/
theorem swb_scan_b_found_is_min_witness :
    (swb_scan_b AP_NB [] 0 ⟨true, ESP_OK, ESP_OK, ESP_OK, ESP_OK, ESP_OK, [], ESP_OK, 3,
      ESP_OK⟩).found_ap_nb = 3 ∧
    (swb_scan_b AP_NB [] 0 ⟨true, ESP_OK, ESP_OK, ESP_OK, ESP_OK, ESP_OK, [], ESP_OK, 300,
      ESP_OK⟩).found_ap_nb = 50 :=
  ⟨(swb_scan_b_found_is_min AP_NB [] 0
      ⟨true, ESP_OK, ESP_OK, ESP_OK, ESP_OK, ESP_OK, [], ESP_OK, 3, ESP_OK⟩
      (by decide) (by decide) rfl).1,
   (swb_scan_b_found_is_min AP_NB [] 0
      ⟨true, ESP_OK, ESP_OK, ESP_OK, ESP_OK, ESP_OK, [], ESP_OK, 300, ESP_OK⟩
      (by decide) (by decide) rfl).1⟩

/-! ## The protocol client: failures before the dispatch, closing -/

/-- C24, the code at a failing input: the check phase receives the status 500
after the connection has been opened; `ota_update_b` returns `OTA_SYS_ERR`
after the four calls init, open, fetch headers and get status code: neither
`esp_http_client_close` nor `esp_http_client_cleanup` is called. -/
theorem ota_update_b_unmodeled_status_not_closed :
    (ota_update_b ['s', 'r', 'v'] 443 [] [] [] DEV_ID OTA_VERSION (List.replicate 256 NUL)
        (http_answers 500 [] ESP_OK)).status = OTA_SYS_ERR ∧
    (ota_update_b ['s', 'r', 'v'] 443 [] [] [] DEV_ID OTA_VERSION (List.replicate 256 NUL)
        (http_answers 500 [] ESP_OK)).calls =
      [HttpCall.esp_http_client_init
          ⟨check_url_text ['s', 'r', 'v'] 443 DEV_ID OTA_VERSION, [], [], []⟩,
        HttpCall.esp_http_client_open 0, HttpCall.esp_http_client_fetch_headers,
        HttpCall.esp_http_client_get_status_code] ∧
    HttpCall.esp_http_client_close ∉
      (ota_update_b ['s', 'r', 'v'] 443 [] [] [] DEV_ID OTA_VERSION (List.replicate 256 NUL)
        (http_answers 500 [] ESP_OK)).calls := by
  decide

/-- For the statuses 400, 403, 404, 204 and 200 the check-phase connection is
closed: `esp_http_client_close` is among the calls. -/
theorem ota_update_b_modeled_status_closed (server_name : List Char) (server_port : Nat)
    (cert_pem username password id app_ver update_file_path : List Char) (h : HttpAnswers)
    (hurl : snprintf_length (check_url_text server_name server_port id app_ver) ≤
      REQUEST_URL_MAX_LENGTH)
    (hinit : h.init_ok = true) (hopen : h.open_rs = ESP_OK)
    (hfail : h.content_length ≠ ESP_FAIL)
    (hstatus : h.status_code = 400 ∨ h.status_code = 403 ∨ h.status_code = 404 ∨
      h.status_code = 204 ∨ h.status_code = 200) :
    HttpCall.esp_http_client_close ∈
      (ota_update_b server_name server_port cert_pem username password id app_ver
        update_file_path h).calls := by
  have hurl2 : ¬ snprintf_length (check_url_text server_name server_port id app_ver) >
      REQUEST_URL_MAX_LENGTH := not_lt.mpr hurl
  have hsc : HttpCall.esp_http_client_close ∈ (stop_comm h).2 := by
    unfold stop_comm
    split_ifs <;> simp
  unfold ota_update_b
  simp only [hurl2, hinit, hopen, hfail]
  rcases hstatus with hs | hs | hs | hs | hs
  · by_cases hne : (stop_comm h).1 ≠ OTA_OK <;> simp [hs, hne, hsc]
  · by_cases hne : (stop_comm h).1 ≠ OTA_OK <;> simp [hs, hne, hsc]
  · by_cases hne : (stop_comm h).1 ≠ OTA_OK <;> simp [hs, hne, hsc]
  · by_cases hne : (stop_comm h).1 ≠ OTA_OK <;> simp [hs, hne, hsc]
  · by_cases hlen : h.content_length > UPDATE_FILE_PATH_MAX_LENGTH
    · simp [hs, hlen, hsc]
    · by_cases hne : (stop_comm h).1 ≠ OTA_OK
      · simp [hs, hlen, hne, hsc]
      · by_cases hl2 : snprintf_length (file_url_text server_name server_port
            (esp_http_client_read update_file_path h.body h.content_length)) >
            REQUEST_URL_MAX_LENGTH
        · simp [hs, hlen, hne, hl2, hsc]
        · by_cases hota : h.https_ota_rs ≠ ESP_OK <;> simp [hs, hlen, hne, hl2, hota, hsc]

/-- C26: failures before the status dispatch do not depend on the HTTP status:
whatever `status_code` holds, `ota_update_b` returns `OTA_SYS_ERR` when
`esp_http_client_init` gives no client, `OTA_CONN_ERR` when
`esp_http_client_open` fails, and `OTA_CONN_ERR` when
`esp_http_client_fetch_headers` fails; the status code is not asked for. -/
theorem ota_update_b_early_failures (server_name : List Char) (server_port : Nat)
    (cert_pem username password id app_ver update_file_path : List Char) (h : HttpAnswers)
    (code : Int)
    (hurl : snprintf_length (check_url_text server_name server_port id app_ver) ≤
      REQUEST_URL_MAX_LENGTH) :
    (h.init_ok = false →
      (ota_update_b server_name server_port cert_pem username password id app_ver
        update_file_path { h with status_code := code }).status = OTA_SYS_ERR) ∧
    (h.init_ok = true → h.open_rs ≠ ESP_OK →
      (ota_update_b server_name server_port cert_pem username password id app_ver
        update_file_path { h with status_code := code }).status = OTA_CONN_ERR) ∧
    (h.init_ok = true → h.open_rs = ESP_OK → h.content_length = ESP_FAIL →
      (ota_update_b server_name server_port cert_pem username password id app_ver
        update_file_path { h with status_code := code }).status = OTA_CONN_ERR) ∧
    (h.init_ok = false ∨ h.open_rs ≠ ESP_OK ∨ h.content_length = ESP_FAIL →
      HttpCall.esp_http_client_get_status_code ∉
        (ota_update_b server_name server_port cert_pem username password id app_ver
          update_file_path { h with status_code := code }).calls) := by
  have hurl2 : ¬ snprintf_length (check_url_text server_name server_port id app_ver) >
      REQUEST_URL_MAX_LENGTH := not_lt.mpr hurl
  unfold ota_update_b
  dsimp only
  rw [if_neg hurl2]
  refine ⟨?_, ?_, ?_, ?_⟩
  · intro hinit
    rw [if_pos hinit]
  · intro hinit hopen
    have hi : ¬ h.init_ok = false := by rw [hinit]; decide
    rw [if_neg hi, if_pos hopen]
  · intro hinit hopen hfail
    have hi : ¬ h.init_ok = false := by rw [hinit]; decide
    have ho : ¬ h.open_rs ≠ ESP_OK := fun hn => hn hopen
    rw [if_neg hi, if_neg ho, if_pos hfail]
  · intro hbad
    by_cases hi : h.init_ok = false
    · rw [if_pos hi]
      simp
    rw [if_neg hi]
    by_cases ho : h.open_rs ≠ ESP_OK
    · rw [if_pos ho]
      simp
    rw [if_neg ho]
    have hfail : h.content_length = ESP_FAIL := by
      rcases hbad with hb | hb | hb
      · exact absurd hb hi
      · exact absurd hb ho
      · exact hb
    rw [if_pos hfail]
    simp

/-- C26 at a client that cannot be created, at an open that fails and at
headers that cannot be fetched, each with the status 200 in store. -/
theorem ota_update_b_early_failures_witness :
    (ota_update_b ['s', 'r', 'v'] 443 [] [] [] DEV_ID OTA_VERSION (List.replicate 256 NUL)
        ⟨false, ESP_OK, 0, 200, [], ESP_OK, ESP_OK, ESP_OK⟩).status = OTA_SYS_ERR ∧
    (ota_update_b ['s', 'r', 'v'] 443 [] [] [] DEV_ID OTA_VERSION (List.replicate 256 NUL)
        ⟨true, ESP_FAIL, 0, 200, [], ESP_OK, ESP_OK, ESP_OK⟩).status = OTA_CONN_ERR ∧
    (ota_update_b ['s', 'r', 'v'] 443 [] [] [] DEV_ID OTA_VERSION (List.replicate 256 NUL)
        ⟨true, ESP_OK, ESP_FAIL, 200, [], ESP_OK, ESP_OK, ESP_OK⟩).status = OTA_CONN_ERR :=
  ⟨(ota_update_b_early_failures ['s', 'r', 'v'] 443 [] [] [] DEV_ID OTA_VERSION
      (List.replicate 256 NUL) ⟨false, ESP_OK, 0, 200, [], ESP_OK, ESP_OK, ESP_OK⟩ 200
      (by decide)).1 rfl,
   (ota_update_b_early_failures ['s', 'r', 'v'] 443 [] [] [] DEV_ID OTA_VERSION
      (List.replicate 256 NUL) ⟨true, ESP_FAIL, 0, 200, [], ESP_OK, ESP_OK, ESP_OK⟩ 200
      (by decide)).2.1 rfl (by decide),
   (ota_update_b_early_failures ['s', 'r', 'v'] 443 [] [] [] DEV_ID OTA_VERSION
      (List.replicate 256 NUL) ⟨true, ESP_OK, ESP_FAIL, 200, [], ESP_OK, ESP_OK, ESP_OK⟩ 200
      (by decide)).2.2.1 rfl rfl rfl⟩

/-! ## The orchestrator: fatal exits, connection, bounds -/

/-- The body of the loop ends by a call of `esp_restart` only after a call of
`cwb_disconnect_b`. -/
theorem loop_body_restarted (cfg : Config) (v : Vars) (a : Answers)
    (h : (loop_body cfg v a).flow = Flow.restarted) :
    ∃ pre, (loop_body cfg v a).events =
      pre ++ [Event.cwb_disconnect_b, Event.esp_restart] := by
  unfold loop_body at h ⊢
  dsimp only at h ⊢
  generalize ota_update_b cfg.OTA_SERVER_NAME cfg.OTA_SERVER_PORT cfg.server_cert_pem
    cfg.OTA_SERVER_USERNAME cfg.OTA_SERVER_PASSWORD DEV_ID OTA_VERSION
    v.update_file_path a.http = o at h ⊢
  generalize is_ota_ap_available cfg.OTA_UPDATE_AP_SSID
    (swb_scan_b AP_NB v.ap_records v.found_ap_nb a.wifi).ap_records
    (swb_scan_b AP_NB v.ap_records v.found_ap_nb a.wifi).found_ap_nb = m at h ⊢
  generalize swb_scan_b AP_NB v.ap_records v.found_ap_nb a.wifi = scan at h ⊢
  split_ifs at h ⊢
  all_goals first
    | (simp at h; done)
    | exact ⟨_, rfl⟩
    | (rcases m with _ | _ | _ <;> simp at h)

/-- A pass that ends by a restart ends either with the delay of
`WAIT_BEFORE_RESTART_PERIOD_MS` followed by `esp_restart`, or with
`cwb_disconnect_b` followed by `esp_restart`. -/
theorem app_main_pass_restarted (cfg : Config) (v : Vars) (a : Answers)
    (h : (app_main_pass cfg v a).flow = Flow.restarted) :
    [Event.vTaskDelay_ms WAIT_BEFORE_RESTART_PERIOD_MS, Event.esp_restart] <:+
        (app_main_pass cfg v a).events ∨
      [Event.cwb_disconnect_b, Event.esp_restart] <:+ (app_main_pass cfg v a).events := by
  unfold app_main_pass at h ⊢
  cases hf : (loop_body cfg v a).flow
  · rw [hf] at h
    dsimp only at h
    rw [hf] at h
    cases h
  · left
    dsimp only
    exact List.suffix_append _ _
  · right
    dsimp only
    obtain ⟨pre, hpre⟩ := loop_body_restarted cfg v a hf
    rw [hpre]
    exact List.suffix_append _ _
  · rw [hf] at h
    dsimp only at h
    rw [hf] at h
    cases h

theorem app_main_run_restarted (cfg : Config) (answers : List Answers) :
    ∀ v : Vars, (app_main_run cfg v answers).flow = Flow.restarted →
      [Event.vTaskDelay_ms WAIT_BEFORE_RESTART_PERIOD_MS, Event.esp_restart] <:+
          (app_main_run cfg v answers).events ∨
        [Event.cwb_disconnect_b, Event.esp_restart] <:+
          (app_main_run cfg v answers).events := by
  induction answers with
  | nil =>
    intro v h
    simp [app_main_run] at h
  | cons a rest ih =>
    intro v h
    cases hf : (app_main_pass cfg v a).flow
    · rw [app_main_run_cons_next cfg v a rest hf] at h ⊢
      dsimp only at h ⊢
      rcases ih _ h with hs | hs
      · exact Or.inl (hs.trans (List.suffix_append _ _))
      · exact Or.inr (hs.trans (List.suffix_append _ _))
    · have hrun : app_main_run cfg v (a :: rest) = app_main_pass cfg v a := by
        rw [app_main_run, hf]
      rw [hrun, hf] at h
      cases h
    · rw [app_main_run_cons_restarted cfg v a rest hf]
      exact app_main_pass_restarted cfg v a hf
    · have hrun : app_main_run cfg v (a :: rest) = app_main_pass cfg v a := by
        rw [app_main_run, hf]
      rw [hrun, hf] at h
      cases h

/-- A pass in `ST_SCAN` whose scan returns `SWB_ERROR`. -/
theorem scan_pass_error (cfg : Config) (v : Vars) (a : Answers)
    (hstate : v.current_state = ST_SCAN)
    (hscan : (swb_scan_b AP_NB v.ap_records v.found_ap_nb a.wifi).status = SWB_ERROR) :
    loop_body cfg v a =
      ⟨[Event.swb_scan_b AP_NB], Flow.exit_on_fatal_error,
        { v with
          ap_records := (swb_scan_b AP_NB v.ap_records v.found_ap_nb a.wifi).ap_records,
          found_ap_nb := (swb_scan_b AP_NB v.ap_records v.found_ap_nb a.wifi).found_ap_nb }⟩ := by
  unfold loop_body
  dsimp only
  rw [if_pos hstate, if_pos hscan]

/-- A pass in `ST_TRY_OTA` in which `ota_update_b` returns `OTA_SYS_ERR`. -/
theorem try_ota_pass_sys_err (cfg : Config) (v : Vars) (a : Answers)
    (hstate : v.current_state = ST_TRY_OTA) (hconn : a.connect_rs = CWB_OK)
    (hota : (app_ota_update cfg v a).status = OTA_SYS_ERR) :
    app_main_pass cfg v a =
      ⟨[Event.cwb_connect_b cfg.OTA_UPDATE_AP_SSID cfg.OTA_UPDATE_AP_PASSWORD IP_TIMEOUT_MS,
        Event.ota_update_b (app_ota_update cfg v a).calls,
        Event.vTaskDelay_ms WAIT_BEFORE_RESTART_PERIOD_MS, Event.esp_restart],
        Flow.restarted,
        { v with update_file_path := (app_ota_update cfg v a).update_file_path }⟩ := by
  have hfatal := app_main_pass_of_fatal cfg v a
    [Event.cwb_connect_b cfg.OTA_UPDATE_AP_SSID cfg.OTA_UPDATE_AP_PASSWORD IP_TIMEOUT_MS,
      Event.ota_update_b (app_ota_update cfg v a).calls]
    { v with update_file_path := (app_ota_update cfg v a).update_file_path }
  apply hfatal
  unfold app_ota_update at hota ⊢
  unfold loop_body
  dsimp only
  generalize ota_update_b cfg.OTA_SERVER_NAME cfg.OTA_SERVER_PORT cfg.server_cert_pem
    cfg.OTA_SERVER_USERNAME cfg.OTA_SERVER_PASSWORD DEV_ID OTA_VERSION
    v.update_file_path a.http = o at hota ⊢
  have hs : ¬ ST_TRY_OTA = ST_SCAN := by decide
  rw [hstate, if_neg hs, if_pos rfl, if_pos hconn, if_pos hota]
  rfl

/-- C21: every jump to `exit_on_fatal_error` is followed by the same two
actions, the delay of `WAIT_BEFORE_RESTART_PERIOD_MS` and then `esp_restart`:
for a failure before the loop, for a pass of the loop whose body jumps there
whatever the cause, and in particular for a scan that returns `SWB_ERROR`.
In a whole run, a restart that does not follow the disconnection after an
update always follows that delay. -/
theorem fatal_exit_is_delay_then_restart (cfg : Config) (s : StartAnswers)
    (statics v : Vars) (a : Answers) (answers : List Answers) :
    ((app_main_start s).fatal = true →
      (app_main cfg s statics answers).events =
        [Event.vTaskDelay_ms WAIT_BEFORE_RESTART_PERIOD_MS, Event.esp_restart] ∧
      (app_main cfg s statics answers).flow = Flow.restarted) ∧
    ((loop_body cfg v a).flow = Flow.exit_on_fatal_error →
      (app_main_pass cfg v a).events = (loop_body cfg v a).events ++
        [Event.vTaskDelay_ms WAIT_BEFORE_RESTART_PERIOD_MS, Event.esp_restart] ∧
      (app_main_pass cfg v a).flow = Flow.restarted) ∧
    (v.current_state = ST_SCAN →
      (swb_scan_b AP_NB v.ap_records v.found_ap_nb a.wifi).status = SWB_ERROR →
      (loop_body cfg v a).flow = Flow.exit_on_fatal_error ∧
      (app_main_pass cfg v a).events =
        [Event.swb_scan_b AP_NB, Event.vTaskDelay_ms WAIT_BEFORE_RESTART_PERIOD_MS,
          Event.esp_restart]) ∧
    ((app_main cfg s statics answers).flow = Flow.restarted →
      [Event.vTaskDelay_ms WAIT_BEFORE_RESTART_PERIOD_MS, Event.esp_restart] <:+
          (app_main cfg s statics answers).events ∨
        [Event.cwb_disconnect_b, Event.esp_restart] <:+
          (app_main cfg s statics answers).events) := by
  refine ⟨?_, ?_, ?_, ?_⟩
  · intro hstart
    unfold app_main
    rw [if_pos hstart]
    exact ⟨rfl, rfl⟩
  · intro hbody
    unfold app_main_pass
    rw [hbody]
    exact ⟨rfl, rfl⟩
  · intro hstate hscan
    have hbody := scan_pass_error cfg v a hstate hscan
    refine ⟨by rw [hbody], ?_⟩
    rw [app_main_pass_of_fatal cfg v a _ _ hbody]
    rfl
  · intro hflow
    unfold app_main at hflow ⊢
    by_cases hstart : (app_main_start s).fatal = true
    · rw [if_pos hstart]
      exact Or.inl (List.suffix_refl _)
    · rw [if_neg hstart] at hflow ⊢
      exact app_main_run_restarted cfg answers _ hflow

/-- C21 at a start in which `esp_netif_init` fails, and at a first pass in
which the scanner cannot create its network interface. -/
theorem fatal_exit_is_delay_then_restart_witness :
    (app_main scenario_cfg ⟨ESP_OK, ESP_OK, ESP_OK, ESP_FAIL, ESP_OK⟩ boot_vars []).events =
      [Event.vTaskDelay_ms WAIT_BEFORE_RESTART_PERIOD_MS, Event.esp_restart] ∧
    (app_main_pass scenario_cfg boot_vars
      ⟨⟨false, ESP_OK, ESP_OK, ESP_OK, ESP_OK, ESP_OK, [], ESP_OK, 0, ESP_OK⟩, CWB_OK,
        http_answers 204 [] ESP_OK, CWB_OK⟩).events =
      [Event.swb_scan_b AP_NB, Event.vTaskDelay_ms WAIT_BEFORE_RESTART_PERIOD_MS,
        Event.esp_restart] :=
  ⟨((fatal_exit_is_delay_then_restart scenario_cfg ⟨ESP_OK, ESP_OK, ESP_OK, ESP_FAIL, ESP_OK⟩
      boot_vars boot_vars scenario_c_answers []).1 (by decide)).1,
   ((fatal_exit_is_delay_then_restart scenario_cfg ⟨ESP_OK, ESP_OK, ESP_OK, ESP_OK, ESP_OK⟩
      boot_vars boot_vars
      ⟨⟨false, ESP_OK, ESP_OK, ESP_OK, ESP_OK, ESP_OK, [], ESP_OK, 0, ESP_OK⟩, CWB_OK,
        http_answers 204 [] ESP_OK, CWB_OK⟩ []).2.2.1 rfl rfl).2⟩

/-- C25: when `ota_update_b` returns `OTA_SYS_ERR`, the pass continues at
`exit_on_fatal_error` right after `ota_update_b`: its calls are the join,
`ota_update_b`, the delay of `WAIT_BEFORE_RESTART_PERIOD_MS` and
`esp_restart`; `cwb_disconnect_b` is not called. -/
theorem sys_err_outcome_restarts_without_disconnect (cfg : Config) (v : Vars) (a : Answers)
    (hstate : v.current_state = ST_TRY_OTA) (hconn : a.connect_rs = CWB_OK)
    (hota : (app_ota_update cfg v a).status = OTA_SYS_ERR) :
    (app_main_pass cfg v a).events =
      [Event.cwb_connect_b cfg.OTA_UPDATE_AP_SSID cfg.OTA_UPDATE_AP_PASSWORD IP_TIMEOUT_MS,
        Event.ota_update_b (app_ota_update cfg v a).calls,
        Event.vTaskDelay_ms WAIT_BEFORE_RESTART_PERIOD_MS, Event.esp_restart] ∧
    Event.cwb_disconnect_b ∉ (app_main_pass cfg v a).events ∧
    (app_main_pass cfg v a).flow = Flow.restarted := by
  rw [try_ota_pass_sys_err cfg v a hstate hconn hota]
  refine ⟨rfl, ?_, rfl⟩
  simp

/-- C25 at scenario F: the join succeeds and the check phase receives the
status 500. -/
theorem sys_err_outcome_restarts_without_disconnect_witness :
    Event.cwb_disconnect_b ∉ (app_main_pass scenario_cfg try_ota_vars
      ⟨scan_answers [], CWB_OK, http_answers 500 [] ESP_OK, CWB_OK⟩).events ∧
    (app_main_pass scenario_cfg try_ota_vars
      ⟨scan_answers [], CWB_OK, http_answers 500 [] ESP_OK, CWB_OK⟩).flow = Flow.restarted :=
  (sys_err_outcome_restarts_without_disconnect scenario_cfg try_ota_vars
    ⟨scan_answers [], CWB_OK, http_answers 500 [] ESP_OK, CWB_OK⟩ rfl rfl (by decide)).2

/-- The loop of `is_ota_ap_available` returns as soon as all the indices it
can read lie inside the array. -/
theorem is_ota_ap_available_loop_in_bounds (ota : List Char)
    (ap_records : List wifi_ap_record_t) (left : Nat) :
    ∀ i, i + left ≤ ap_records.length →
      ∃ b, is_ota_ap_available_loop ota ap_records left i = some b := by
  induction left with
  | zero =>
    intro i _
    exact ⟨false, rfl⟩
  | succ left ih =>
    intro i hi
    have hlt : i < ap_records.length := by omega
    have hget : ap_records[i]? = some ap_records[i] := List.getElem?_eq_getElem hlt
    unfold is_ota_ap_available_loop
    simp only [hget]
    split_ifs
    · exact ⟨true, rfl⟩
    · exact ih (i + 1) (by omega)

/-- The body of the loop ends by a read outside `ap_records` only when
`is_ota_ap_available` does. -/
theorem loop_body_undefined (cfg : Config) (v : Vars) (a : Answers)
    (h : (loop_body cfg v a).flow = Flow.undefined) :
    is_ota_ap_available cfg.OTA_UPDATE_AP_SSID
      (swb_scan_b AP_NB v.ap_records v.found_ap_nb a.wifi).ap_records
      (swb_scan_b AP_NB v.ap_records v.found_ap_nb a.wifi).found_ap_nb = none := by
  unfold loop_body at h
  dsimp only at h
  generalize ota_update_b cfg.OTA_SERVER_NAME cfg.OTA_SERVER_PORT cfg.server_cert_pem
    cfg.OTA_SERVER_USERNAME cfg.OTA_SERVER_PASSWORD DEV_ID OTA_VERSION
    v.update_file_path a.http = o at h
  generalize is_ota_ap_available cfg.OTA_UPDATE_AP_SSID
    (swb_scan_b AP_NB v.ap_records v.found_ap_nb a.wifi).ap_records
    (swb_scan_b AP_NB v.ap_records v.found_ap_nb a.wifi).found_ap_nb = m at h ⊢
  generalize swb_scan_b AP_NB v.ap_records v.found_ap_nb a.wifi = scan at h
  split_ifs at h
  rcases m with _ | _ | _
  · rfl
  · simp at h
  · simp at h

/-- C27: in a pass of the loop whose scan succeeds, the array `ap_records`
having its `AP_NB` = 50 records, the found count written by
`swb_scan_b(AP_NB, ...)` is at most 50, every index below the found count lies
inside the array, `is_ota_ap_available` returns a value, and the pass makes no
read outside the array. -/
theorem found_count_within_ap_records (cfg : Config) (v : Vars) (a : Answers)
    (hscan : (swb_scan_b AP_NB v.ap_records v.found_ap_nb a.wifi).status = SWB_SUCCESS)
    (hsize : a.wifi.ap_records.length = AP_NB) :
    AP_NB = 50 ∧
    (swb_scan_b AP_NB v.ap_records v.found_ap_nb a.wifi).found_ap_nb ≤ AP_NB ∧
    (∀ i, i < (swb_scan_b AP_NB v.ap_records v.found_ap_nb a.wifi).found_ap_nb →
      ∃ r, (swb_scan_b AP_NB v.ap_records v.found_ap_nb a.wifi).ap_records[i]? = some r) ∧
    (∃ b, is_ota_ap_available cfg.OTA_UPDATE_AP_SSID
      (swb_scan_b AP_NB v.ap_records v.found_ap_nb a.wifi).ap_records
      (swb_scan_b AP_NB v.ap_records v.found_ap_nb a.wifi).found_ap_nb = some b) ∧
    (app_main_pass cfg v a).flow ≠ Flow.undefined := by
  obtain ⟨hrecords, hle⟩ := swb_scan_b_success AP_NB v.ap_records v.found_ap_nb a.wifi hscan
  have hlen : (swb_scan_b AP_NB v.ap_records v.found_ap_nb a.wifi).ap_records.length =
      AP_NB := by rw [hrecords, hsize]
  have hret : ∃ b, is_ota_ap_available cfg.OTA_UPDATE_AP_SSID
      (swb_scan_b AP_NB v.ap_records v.found_ap_nb a.wifi).ap_records
      (swb_scan_b AP_NB v.ap_records v.found_ap_nb a.wifi).found_ap_nb = some b := by
    unfold is_ota_ap_available
    exact is_ota_ap_available_loop_in_bounds _ _ _ 0 (by rw [hlen]; omega)
  refine ⟨rfl, hle, ?_, hret, ?_⟩
  · intro i hi
    have hlt : i < (swb_scan_b AP_NB v.ap_records v.found_ap_nb a.wifi).ap_records.length := by
      rw [hlen]; omega
    exact ⟨_, List.getElem?_eq_getElem hlt⟩
  · intro hflow
    have hbody : (loop_body cfg v a).flow = Flow.undefined := by
      unfold app_main_pass at hflow
      cases hf : (loop_body cfg v a).flow
      · rw [hf] at hflow; dsimp only at hflow; rw [hf] at hflow; cases hflow
      · rw [hf] at hflow; dsimp only at hflow; cases hflow
      · rw [hf] at hflow; dsimp only at hflow; rw [hf] at hflow; cases hflow
      · rfl
    obtain ⟨b, hb⟩ := hret
    rw [loop_body_undefined cfg v a hbody] at hb
    cases hb

/-- C27 at a scan after a boot that returns 300 access points, "Maint-AP" not
among the first 50. -/
theorem found_count_within_ap_records_witness :
    (swb_scan_b AP_NB boot_vars.ap_records boot_vars.found_ap_nb
      ⟨true, ESP_OK, ESP_OK, ESP_OK, ESP_OK, ESP_OK,
        List.replicate 50 (record_of_ssid ['H', 'o', 'm', 'e']), ESP_OK, 300,
        ESP_OK⟩).found_ap_nb ≤ AP_NB ∧
    (app_main_pass scenario_cfg boot_vars
      ⟨⟨true, ESP_OK, ESP_OK, ESP_OK, ESP_OK, ESP_OK,
        List.replicate 50 (record_of_ssid ['H', 'o', 'm', 'e']), ESP_OK, 300, ESP_OK⟩,
        CWB_OK, http_answers 204 [] ESP_OK, CWB_OK⟩).flow ≠ Flow.undefined :=
  ⟨(found_count_within_ap_records scenario_cfg boot_vars
      ⟨⟨true, ESP_OK, ESP_OK, ESP_OK, ESP_OK, ESP_OK,
        List.replicate 50 (record_of_ssid ['H', 'o', 'm', 'e']), ESP_OK, 300, ESP_OK⟩,
        CWB_OK, http_answers 204 [] ESP_OK, CWB_OK⟩ rfl (by decide)).2.1,
   (found_count_within_ap_records scenario_cfg boot_vars
      ⟨⟨true, ESP_OK, ESP_OK, ESP_OK, ESP_OK, ESP_OK,
        List.replicate 50 (record_of_ssid ['H', 'o', 'm', 'e']), ESP_OK, 300, ESP_OK⟩,
        CWB_OK, http_answers 204 [] ESP_OK, CWB_OK⟩ rfl (by decide)).2.2.2.2⟩

theorem calls_respect_connection_fatal (a : Answers) (es : List Event) :
    ∀ connected, calls_respect_connection a connected (es ++ exit_on_fatal_error) =
      calls_respect_connection a connected es := by
  induction es with
  | nil =>
    intro connected
    simp [exit_on_fatal_error, calls_respect_connection]
  | cons e es ih =>
    intro connected
    cases e <;> simp [calls_respect_connection, ih]

/-- The calls of the body of the loop, started without a connection, respect
the connection, and a body that ends by `break` leaves no connection, when
`cwb_disconnect_b` returns one of its documented statuses. -/
theorem loop_body_respects_connection (cfg : Config) (v : Vars) (a : Answers)
    (hdoc : disconnect_status_documented a) :
    calls_respect_connection a false (loop_body cfg v a).events = true ∧
    ((loop_body cfg v a).flow = Flow.next_iteration →
      connection_after a false (loop_body cfg v a).events = false) := by
  unfold disconnect_status_documented at hdoc
  unfold loop_body
  dsimp only
  generalize ota_update_b cfg.OTA_SERVER_NAME cfg.OTA_SERVER_PORT cfg.server_cert_pem
    cfg.OTA_SERVER_USERNAME cfg.OTA_SERVER_PASSWORD DEV_ID OTA_VERSION
    v.update_file_path a.http = o
  generalize is_ota_ap_available cfg.OTA_UPDATE_AP_SSID
    (swb_scan_b AP_NB v.ap_records v.found_ap_nb a.wifi).ap_records
    (swb_scan_b AP_NB v.ap_records v.found_ap_nb a.wifi).found_ap_nb = m
  generalize swb_scan_b AP_NB v.ap_records v.found_ap_nb a.wifi = scan
  split_ifs
  all_goals first
    | (simp [calls_respect_connection, connection_after, *]; done)
    | (rcases m with _ | _ | _ <;>
        simp [calls_respect_connection, connection_after, *]; done)
    | (exfalso; tauto)

/-- The same for a whole pass, the code at `exit_on_fatal_error` included. -/
theorem app_main_pass_respects_connection (cfg : Config) (v : Vars) (a : Answers)
    (hdoc : disconnect_status_documented a) :
    calls_respect_connection a false (app_main_pass cfg v a).events = true ∧
    ((app_main_pass cfg v a).flow = Flow.next_iteration →
      connection_after a false (app_main_pass cfg v a).events = false) := by
  obtain ⟨hcalls, hafter⟩ := loop_body_respects_connection cfg v a hdoc
  unfold app_main_pass
  cases hf : (loop_body cfg v a).flow
  · dsimp only
    exact ⟨hcalls, fun _ => hafter hf⟩
  · dsimp only
    refine ⟨?_, ?_⟩
    · rw [calls_respect_connection_fatal]
      exact hcalls
    · intro h
      cases h
  · dsimp only
    refine ⟨hcalls, ?_⟩
    intro h
    rw [hf] at h
    cases h
  · dsimp only
    refine ⟨hcalls, ?_⟩
    intro h
    rw [hf] at h
    cases h

theorem app_main_run_respects_connection (cfg : Config) (answers : List Answers)
    (hdoc : ∀ a ∈ answers, disconnect_status_documented a) :
    ∀ v : Vars, run_respects_connection cfg v false answers = true := by
  induction answers with
  | nil =>
    intro v
    rfl
  | cons a rest ih =>
    intro v
    obtain ⟨hcalls, hafter⟩ :=
      app_main_pass_respects_connection cfg v a (hdoc a (List.mem_cons_self a rest))
    have hrest := ih (fun b hb => hdoc b (List.mem_cons_of_mem a hb))
    unfold run_respects_connection
    rw [hcalls, Bool.true_and]
    cases hf : (app_main_pass cfg v a).flow
    · dsimp only
      rw [hafter hf]
      exact hrest _
    · rfl
    · rfl
    · rfl

/-- With a status of `cwb_disconnect_b` outside the documented ones the
connection is not respected: after the answer 204 and the status
`CWB_CONN_ERR` the next pass calls `cwb_connect_b` while the connection of the
first pass still exists. -/
theorem undocumented_disconnect_status_breaks_connection :
    run_respects_connection scenario_cfg try_ota_vars false
      [⟨scan_answers [], CWB_OK, http_answers 204 [] ESP_OK, CWB_CONN_ERR⟩,
       ⟨scan_answers [], CWB_OK, http_answers 204 [] ESP_OK, CWB_OK⟩] = false := by
  decide

/-- C22: under the contract of the connection manager (a connection exists
from a `cwb_connect_b` that returned `CWB_OK` until a `cwb_disconnect_b` that
returned `CWB_OK` or `CWB_ALREADY_DIS`, and `cwb_disconnect_b` returns one of
its four documented statuses), in every run of the loop entered without a
connection, `cwb_connect_b` is called only while no connection exists and
`ota_update_b` only while one exists; every pass that is followed by another
one ends without a connection. -/
theorem connection_respected (cfg : Config) (statics v : Vars) (a : Answers)
    (answers : List Answers)
    (hdoc : ∀ b ∈ answers, disconnect_status_documented b)
    (hdoca : disconnect_status_documented a) :
    run_respects_connection cfg v false answers = true ∧
    run_respects_connection cfg { statics with current_state := ST_SCAN } false answers =
      true ∧
    calls_respect_connection a false (app_main_pass cfg v a).events = true ∧
    ((app_main_pass cfg v a).flow = Flow.next_iteration →
      connection_after a false (app_main_pass cfg v a).events = false) :=
  ⟨app_main_run_respects_connection cfg answers hdoc v,
    app_main_run_respects_connection cfg answers hdoc _,
    (app_main_pass_respects_connection cfg v a hdoca).1,
    (app_main_pass_respects_connection cfg v a hdoca).2⟩

/-- C22 at two cycles of scenario C after a boot. -/
theorem connection_respected_witness :
    run_respects_connection scenario_cfg boot_vars false
      [scenario_c_answers, scenario_c_answers, scenario_c_answers, scenario_c_answers] =
      true :=
  (connection_respected scenario_cfg boot_vars boot_vars scenario_c_answers
    [scenario_c_answers, scenario_c_answers, scenario_c_answers, scenario_c_answers]
    (by
      intro b hb
      simp only [List.mem_cons, List.mem_singleton, List.not_mem_nil, or_false,
        or_self] at hb
      rw [hb]
      exact Or.inl rfl)
    (Or.inl rfl)).1

end Fuota
